import Mathlib

/-!
Verification development for the Opspilot orchestration runtime.

Shallow embedding of the Python source under `src/`:
- `governance/approval.py` (approval queue, approval policy),
- `orchestration/meeting_subgraph.py` (meeting pipeline with quality-retry loop),
- `orchestration/super_graph.py` (cross-agent trigger coordinator),
- `orchestration/autonomous_graph.py` + `agents/autonomous_inbox.py`
  (email pipeline executor and autonomous monitor),
- `orchestration/proactive_scheduler.py` (event queue bound).

Python dict values that the embedded code inspects are modelled by `PyVal`;
dicts by association lists with unique keys (`Payload`).  External
collaborators (DataRepo, LLM gateway, memory stores) are modelled as oracle
parameters; their calls cannot silently change the state they are given.
Timestamps (`datetime.utcnow()`) are threaded as explicit string arguments.
-/

namespace Opspilot

/-- A Python scalar value as stored in the JSON payload dicts
(`None`, `bool`, `int`, `str`). -/
inductive PyVal where
  | none
  | bool (b : Bool)
  | int (n : Int)
  | str (s : String)
deriving DecidableEq, Repr

/-- Python truthiness of a `PyVal` (used by `if task_id:` style guards). -/
def PyVal.truthy : PyVal → Bool
  | .none => false
  | .bool b => b
  | .int n => n != 0
  | .str s => s != ""

/-- A Python dict with string keys, as an association list (unique keys). -/
abbrev Payload := List (String × PyVal)

/-- Embeds `payload.get(k)` / `payload.get(k, None)`. -/
def pget (p : Payload) (k : String) : Option PyVal :=
  (p.find? (fun kv => kv.1 == k)).map (fun kv => kv.2)

/-- The dict after `payload.pop(k, None)`: all bindings of `k` removed. -/
def premove (p : Payload) (k : String) : Payload :=
  p.filter (fun kv => kv.1 != k)

/-- Embeds `k in payload` (Python key-membership test). -/
def pmem (p : Payload) (k : String) : Bool :=
  p.any (fun kv => kv.1 == k)

-- ============================================================
-- governance/approval.py : data model
-- ============================================================

/-- Result dict returned by `ApprovalQueue._execute_action`.  The source
returns shape-varying dicts; the fields below cover every branch
(`success`, `error`, `result`, `task_id`, `email`). -/
structure ExecResult where
  success : Bool
  error : Option String := Option.none
  result : Option PyVal := Option.none
  taskId : Option PyVal := Option.none
  emailPayload : Option Payload := Option.none
deriving DecidableEq, Repr

/-- A pending-action record as created by `ApprovalQueue.add_pending_action`.
Keys that Python adds later (`review_notes`, `rejection_reason`,
`original_payload`, `was_edited`) are `Option`/defaulted fields standing for
absent dict keys. -/
structure PendingAction where
  action_id : String
  action_type : String
  payload : Payload
  reason : String := ""
  source_email_id : Option String := Option.none
  source_meeting_id : Option String := Option.none
  agent_reasoning : String := ""
  session_id : Option String := Option.none
  status : String
  created_utc : String := ""
  reviewed_utc : Option String := Option.none
  reviewed_by : Option String := Option.none
  review_notes : Option String := Option.none
  execution_result : Option ExecResult := Option.none
  original_payload : Option Payload := Option.none
  was_edited : Bool := false
deriving DecidableEq, Repr

/-- Oracle model of `repos.data_repo.DataRepo` as used by
`_execute_action`.  `Except.error e` models a raised exception whose
`str(e)` is `e` (the source catches it and returns `success: False`). -/
structure RepoModel where
  create_task : Payload → Except String PyVal
  update_task : PyVal → Payload → Except String Bool
  save_draft : String → Payload → Except String PyVal
  create_followup : Payload → Except String PyVal
  create_meeting : Payload → Except String PyVal

/-- Embeds `ApprovalQueue._execute_action`.  Besides the result dict it returns the
record itself, because the `update_task` branch mutates the record's payload
in place (`task_id = payload.pop("task_id", None)`). -/
def executeAction (repo : RepoModel) (a : PendingAction) : ExecResult × PendingAction :=
  let payload := a.payload
  if a.action_type = "create_task" then
    match repo.create_task payload with
    | .ok t => ({ success := true, result := some t }, a)
    | .error e => ({ success := false, error := some e }, a)
  else if a.action_type = "update_task" then
    let task_id := pget payload "task_id"
    let payload2 := premove payload "task_id"
    let a2 := { a with payload := payload2 }
    match task_id with
    | some v =>
      if v.truthy then
        match repo.update_task v payload2 with
        | .ok ok => ({ success := ok, taskId := some v }, a2)
        | .error e => ({ success := false, error := some e }, a2)
      else ({ success := false, error := some "No task_id provided" }, a2)
    | Option.none => ({ success := false, error := some "No task_id provided" }, a2)
  else if a.action_type = "send_email" then
    ({ success := true, result := some (.str "Email queued for sending"),
       emailPayload := some payload }, a)
  else if a.action_type = "draft_email_reply" then
    match repo.save_draft "email_reply" payload with
    | .ok d => ({ success := true, result := some d }, a)
    | .error e => ({ success := false, error := some e }, a)
  else if a.action_type = "create_followup" then
    match repo.create_followup payload with
    | .ok f => ({ success := true, result := some f }, a)
    | .error e => ({ success := false, error := some e }, a)
  else if a.action_type = "schedule_meeting" then
    match repo.create_meeting payload with
    | .ok m => ({ success := true, result := some m }, a)
    | .error e => ({ success := false, error := some e }, a)
  else
    ({ success := false, error := some ("Unknown action type: " ++ a.action_type) }, a)

/-- Loop body of `ApprovalQueue.approve_action`: walk the cached list, act on
the first record whose `action_id` matches.  Returns the approved record (or
`none`) and the updated list. -/
def approveGo (repo : RepoModel) (action_id reviewed_by : String) (notes : Option String)
    (now : String) : List PendingAction → Option PendingAction × List PendingAction
  | [] => (Option.none, [])
  | a :: rest =>
    if a.action_id = action_id then
      if a.status ≠ "pending" then (Option.none, a :: rest)
      else
        let a1 := { a with status := "approved", reviewed_utc := some now,
                           reviewed_by := some reviewed_by, review_notes := notes }
        let res := executeAction repo a1
        let a3 := { res.2 with execution_result := some res.1,
                               status := if res.1.success then "executed" else "execution_failed" }
        (some a3, a3 :: rest)
    else
      let r := approveGo repo action_id reviewed_by notes now rest
      (r.1, a :: r.2)

/-- Embeds `ApprovalQueue.approve_action` (audit logging omitted: `_log_approval`
swallows every failure and does not touch the queue). -/
def approveAction (repo : RepoModel) (q : List PendingAction) (action_id : String)
    (reviewed_by : String) (notes : Option String) (now : String) :
    Option PendingAction × List PendingAction :=
  approveGo repo action_id reviewed_by notes now q

/-- First phase of `ApprovalQueue.edit_and_approve`: store the prior payload
under `original_payload`, replace `payload`, set `was_edited`.  Acts on the
first matching pending record; `none` marks "not found or not pending". -/
def editGo (action_id : String) (updated_payload : Payload) :
    List PendingAction → Option (List PendingAction)
  | [] => Option.none
  | a :: rest =>
    if a.action_id = action_id then
      if a.status ≠ "pending" then Option.none
      else
        some ({ a with original_payload := some a.payload,
                       payload := updated_payload,
                       was_edited := true } :: rest)
    else
      (editGo action_id updated_payload rest).map (fun rest2 => a :: rest2)

/-- Embeds `ApprovalQueue.edit_and_approve`: edit the payload, then approve. -/
def editAndApprove (repo : RepoModel) (q : List PendingAction) (action_id : String)
    (updated_payload : Payload) (reviewed_by : String) (now : String) :
    Option PendingAction × List PendingAction :=
  match editGo action_id updated_payload q with
  | Option.none => (Option.none, q)
  | some q2 => approveAction repo q2 action_id reviewed_by Option.none now

-- ============================================================
-- governance/approval.py : ApprovalPolicy
-- ============================================================

/-- Embeds `ApprovalPolicy.ALWAYS_REQUIRE`. -/
def ALWAYS_REQUIRE : List String := ["send_email", "schedule_meeting", "delete_task"]

/-- Embeds `ApprovalPolicy.NEVER_REQUIRE`. -/
def NEVER_REQUIRE : List String :=
  ["read_email", "search_emails", "search_tasks", "search_meetings",
   "get_meeting_transcript", "get_meeting_mom", "find_related_context",
   "think", "mark_email_processed"]

/-- Keys of `ApprovalPolicy.CONDITIONAL_REQUIRE`. -/
def CONDITIONAL_KEYS : List String := ["create_task", "update_task", "create_followup"]

/-- The lambdas stored in `ApprovalPolicy.CONDITIONAL_REQUIRE`, dispatched by
action type. -/
def conditionalCheck (action_type : String) (payload : Payload) : Bool :=
  if action_type = "create_task" then
    pget payload "priority" = some (.str "P0") || pget payload "priority" = some (.str "P1")
  else if action_type = "update_task" then
    pmem payload "priority" &&
      (pget payload "priority" = some (.str "P0") || pget payload "priority" = some (.str "P1"))
  else
    true

/-- Embeds `ApprovalPolicy.requires_approval`. -/
def requiresApproval (action_type : String) (payload : Payload) : Bool :=
  if action_type ∈ NEVER_REQUIRE then false
  else if action_type ∈ ALWAYS_REQUIRE then true
  else if action_type ∈ CONDITIONAL_KEYS then conditionalCheck action_type payload
  else true

-- ============================================================
-- agents/autonomous_inbox.py : ProcessorState / AgentEvent
-- orchestration/proactive_scheduler.py : event queue
-- ============================================================

/-- Embeds `AgentEvent` dataclass (metadata dict kept as a `Payload`). -/
structure AgentEvent where
  event_id : String := ""
  event_type : String := ""
  email_id : Option String := Option.none
  content : String := ""
  metadata : Payload := []
  timestamp : String := ""
deriving DecidableEq, Repr

/-- Embeds `ProcessorState` dataclass. -/
structure ProcessorState where
  is_running : Bool := false
  current_email_id : Option String := Option.none
  processed_count : Nat := 0
  error_count : Nat := 0
  last_check_time : Option String := Option.none
  events : List AgentEvent := []
  max_events : Nat := 100
deriving DecidableEq, Repr

/-- Python's negative-index slice `xs[-m:]`.  For `m = 0` it is the whole
list (`xs[-0:] == xs[0:]`), otherwise the last `m` elements. -/
def pySliceLast {α : Type} (l : List α) (m : Nat) : List α :=
  if m = 0 then l else l.drop (l.length - m)

/-- Embeds `ProcessorState.add_event`: append, then trim to the last
`max_events` entries. -/
def addEvent (st : ProcessorState) (e : AgentEvent) : ProcessorState :=
  let evs := st.events ++ [e]
  if evs.length > st.max_events then { st with events := pySliceLast evs st.max_events }
  else { st with events := evs }

/-- Embeds `ProactiveEvent` dataclass (actions/metadata omitted: the queue bound
does not inspect them). -/
structure ProactiveEvent where
  event_type : String := ""
  priority : String := ""
  title : String := ""
  message : String := ""
  timestamp : String := ""
  user_email : String := ""
  requires_approval : Bool := false
deriving DecidableEq, Repr

/-- The `ProactiveScheduler` fields touched by `_queue_event`. -/
structure SchedulerState where
  event_queue : List ProactiveEvent := []
  running : Bool := false
deriving DecidableEq, Repr

/-- Embeds `ProactiveScheduler._queue_event`: append, keep only the last 50. -/
def queueEvent (sch : SchedulerState) (e : ProactiveEvent) : SchedulerState :=
  let q := sch.event_queue ++ [e]
  if q.length > 50 then { sch with event_queue := pySliceLast q 50 }
  else { sch with event_queue := q }

-- ============================================================
-- orchestration/meeting_subgraph.py : meeting pipeline
-- ============================================================

/-- The meeting record fields read by the pipeline. -/
structure Meeting where
  title : String := ""
  scheduled_at : String := ""
  attendees : List String := []
  duration_mins : Int := 0
deriving DecidableEq, Repr

/-- One action-item dict from the parsed analysis (`None`/missing keys are
`Option.none`). -/
structure ActionItem where
  assignee : Option String := Option.none
  action : Option String := Option.none
  deadline : Option String := Option.none
deriving DecidableEq, Repr

/-- Parsed result of `gateway.call` + `parse_meeting_analysis`. -/
structure Analysis where
  summary : String := ""
  decisions : List String := []
  action_items : List ActionItem := []
  risks : List String := []
  dependencies : List String := []
deriving DecidableEq, Repr

/-- The MoM dict built by `generate_mom` (`generated_at`/`generated_by`
timestamps omitted: nothing downstream reads them). -/
structure Mom where
  meeting_id : String
  title : String
  date : String
  attendees : List String
  duration_mins : Int
  summary : String
  decisions : List String
  action_items : List ActionItem
  risks : List String
  dependencies : List String
deriving DecidableEq, Repr

/-- One entry of `tasks_to_create` built by `extract_task_triggers`. -/
structure TaskToCreate where
  title : String
  assignee : String
  deadline : Option String
  source : String
  source_id : String
  priority : String
deriving DecidableEq, Repr

/-- Embeds `MeetingState` TypedDict.  Python floats `mom_quality_score`,
`completeness_score` are modelled as exact rationals: every score the
source computes is a sum of integers plus one ratio of natural numbers,
and the only comparison made on it is `< 0.5`. -/
structure MeetingState where
  meeting_id : String
  user_email : String
  session_id : String
  status : String
  iteration : Nat
  max_iterations : Nat
  meeting_data : Option Meeting
  transcript : Option String
  past_meeting_patterns : List String
  reasoning_trace : List String
  meeting_summary : Option String
  key_decisions : List String
  action_items : List ActionItem
  risks : List String
  dependencies : List String
  mom_quality_score : ℚ
  completeness_score : ℚ
  mom : Option Mom
  tasks_to_create : List TaskToCreate
  wellness_concern : Bool
deriving DecidableEq, Repr

/-- Oracle for every external the meeting pipeline consults.
`lookup` models `repo.meetings()` + the `next(...)` search (`Except.error` =
raised exception); `transcript` the transcript file read (`none` = the
`open` failed); `patterns` the memory recall (a failed recall is `[]`);
`analysis k` the gateway call + `parse_meeting_analysis` on the pass whose
`iteration` counter is `k` (`Except.error` = raised exception, handled by
the fallback branch of `analyze_meeting`). -/
structure MeetingOracle where
  lookup : Except String (Option Meeting)
  transcript : Option String
  patterns : List String
  analysis : Nat → Except String Analysis

/-- Embeds `load_meeting_context`. -/
def loadMeetingContext (o : MeetingOracle) (st : MeetingState) : MeetingState :=
  match o.lookup with
  | .error e =>
    { st with status := "error",
              reasoning_trace := st.reasoning_trace ++ ["Error loading meeting: " ++ e] }
  | .ok Option.none =>
    { st with status := "error",
              reasoning_trace := st.reasoning_trace ++
                ["Meeting " ++ st.meeting_id ++ " not found"] }
  | .ok (some m) =>
    { st with meeting_data := some m, status := "analyzing",
              transcript := some (o.transcript.getD "No transcript available"),
              past_meeting_patterns := o.patterns,
              reasoning_trace := st.reasoning_trace ++ ["Loaded meeting: " ++ m.title] ++
                (if o.patterns ≠ [] then ["Found similar past meetings"] else []) }

/-- Embeds `analyze_meeting` (the gateway call, response parsing and the
`memory.remember` side effect are behind the oracle). -/
def analyzeMeeting (o : MeetingOracle) (st : MeetingState) : MeetingState :=
  match st.meeting_data with
  | Option.none =>
    { st with status := "error",
              reasoning_trace := st.reasoning_trace ++ ["No meeting data available"] }
  | some _ =>
    match o.analysis st.iteration with
    | .ok a =>
      { st with meeting_summary := some a.summary,
                key_decisions := a.decisions,
                action_items := a.action_items,
                risks := a.risks,
                dependencies := a.dependencies,
                reasoning_trace := st.reasoning_trace ++ ["Extracted analysis results"],
                status := "generating_mom" }
    | .error e =>
      { st with reasoning_trace := st.reasoning_trace ++ ["Analysis error: " ++ e],
                meeting_summary := some "Meeting analysis failed, using fallback.",
                key_decisions := [],
                action_items := [],
                risks := [],
                dependencies := [],
                status := "generating_mom" }

/-- Embeds `generate_mom`. -/
def generateMom (st : MeetingState) : MeetingState :=
  match st.meeting_data with
  | Option.none =>
    { st with status := "error",
              reasoning_trace := st.reasoning_trace ++
                ["Cannot generate MoM without meeting data"] }
  | some m =>
    let mom : Mom :=
      { meeting_id := st.meeting_id, title := m.title, date := m.scheduled_at,
        attendees := m.attendees, duration_mins := m.duration_mins,
        summary := st.meeting_summary.getD "", decisions := st.key_decisions,
        action_items := st.action_items, risks := st.risks,
        dependencies := st.dependencies }
    { st with mom := some mom, status := "quality_check",
              reasoning_trace := st.reasoning_trace ++ ["Generated MoM structure"] }

/-- Truthiness of `item.get("assignee") and item.get("action")`. -/
def itemComplete (it : ActionItem) : Bool :=
  (match it.assignee with | some s => s != "" | Option.none => false) &&
  (match it.action with | some s => s != "" | Option.none => false)

/-- The 0–100 point total computed by `quality_check_mom`. -/
def momQualityPoints (mom : Mom) : ℚ :=
  let q1 : ℚ := if mom.summary.length > 20 then 30
                else if mom.summary.length > 10 then 15 else 0
  let q2 : ℚ := (if mom.decisions ≠ [] then 15 else 0) +
                (if mom.action_items ≠ [] then 15 else 0) +
                (if mom.risks ≠ [] then 10 else 0)
  let q3 : ℚ := if mom.action_items ≠ [] then
      (((mom.action_items.filter itemComplete).length : ℚ) /
        (mom.action_items.length : ℚ)) * 30
    else 0
  q1 + q2 + q3

/-- Embeds `quality_check_mom`.  When `state["mom"]` is `None` the Python code
raises `AttributeError` at `mom.get("summary", "")`. -/
def qualityCheckMom (st : MeetingState) : Except String MeetingState :=
  match st.mom with
  | Option.none => .error "AttributeError: NoneType object has no attribute get"
  | some mom =>
    let pts := momQualityPoints mom
    .ok { st with mom_quality_score := pts / 100, completeness_score := pts / 100,
                  reasoning_trace := st.reasoning_trace ++ ["Quality score recorded"] }

/-- Embeds `should_retry_mom` as what it is registered as: the path
function of `add_conditional_edges`.  The framework materializes a fresh
dict of channel values for a path function and uses only the returned
label for routing, so the function's in-place
`state["iteration"] = iteration + 1` rebinding is discarded — it never
reaches the graph state.  (Its `reasoning_trace.append` leaks only into
the shared trace list, which nothing downstream reads.)  Hence the
embedding keeps only the routing outcome. -/
def shouldRetryMom (st : MeetingState) : String :=
  if st.mom_quality_score < (1 : ℚ)/2 ∧ st.iteration < st.max_iterations then "retry"
  else "accept"

/-- Embeds `extract_task_triggers`. -/
def extractTaskTriggers (st : MeetingState) : MeetingState :=
  let tasks := st.action_items.filterMap (fun it =>
    match it.assignee, it.action with
    | some a, some act =>
      if a != "" && act != "" then
        some { title := act, assignee := a, deadline := it.deadline,
               source := "meeting", source_id := st.meeting_id,
               priority := "P1" : TaskToCreate }
      else Option.none
    | _, _ => Option.none)
  { st with tasks_to_create := tasks, status := "extracting_actions",
            reasoning_trace := st.reasoning_trace ++
              (if tasks ≠ [] then ["Identified tasks to create"] else []) }

/-- Embeds `kw in s` substring test on Python strings. -/
def strContains (s sub : String) : Bool :=
  decide (sub.toList <:+: s.toList)

/-- Stress keywords scanned by `check_wellness_concerns`. -/
def STRESS_KEYWORDS : List String :=
  ["urgent", "critical", "blocker", "delayed", "issue", "problem"]

/-- Embeds `check_wellness_concerns`.  When `meeting_data` or `meeting_summary`
is `None` the Python code raises `AttributeError` (`meeting.get` /
`None.lower()`). -/
def checkWellnessConcerns (st : MeetingState) : Except String MeetingState :=
  match st.meeting_data with
  | Option.none => .error "AttributeError: NoneType object has no attribute get"
  | some m =>
    match st.meeting_summary with
    | Option.none => .error "AttributeError: NoneType object has no attribute lower"
    | some rawSummary =>
      let c1 := m.duration_mins > 120
      let c2 := st.risks.length ≥ 3
      let summary := rawSummary.toLower
      let c3 := (STRESS_KEYWORDS.filter (fun kw => strContains summary kw)).length ≥ 2
      .ok { st with wellness_concern := c1 || c2 || c3, status := "completed",
                    reasoning_trace := st.reasoning_trace ++
                      (if c1 then ["Long meeting detected"] else []) ++
                      (if c2 then ["High risk count"] else []) ++
                      (if c3 then ["Stress keywords detected in summary"] else []) }

/-- Embeds `record_episode`: writes an episode to external memory and returns the
state unchanged (its whole body is side effects swallowed by `except`). -/
def recordEpisode (st : MeetingState) : MeetingState := st

/-- The cyclic part of the compiled meeting graph, from `analyze_meeting`
onwards.  `fuel` is the framework recursion budget: exhausting it models
the framework's `GraphRecursionError`.  The conditional edge routes on
`should_retry_mom`'s label only; its state writes are discarded (see
`shouldRetryMom`), so the retry branch re-enters the loop with the state
unchanged. -/
def runMeetingFrom (o : MeetingOracle) : Nat → MeetingState → Except String MeetingState
  | 0, _ => .error "GraphRecursionError"
  | fuel + 1, st =>
    let st1 := analyzeMeeting o st
    let st2 := generateMom st1
    match qualityCheckMom st2 with
    | .error e => .error e
    | .ok st3 =>
      if shouldRetryMom st3 = "retry" then runMeetingFrom o fuel st3
      else
        let st5 := extractTaskTriggers st3
        match checkWellnessConcerns st5 with
        | .error e => .error e
        | .ok st6 => .ok (recordEpisode st6)

/-- The initial state built by `process_meeting` (with the iteration cap as
a parameter; `process_meeting` passes `max_iterations = 2`). -/
def initialMeetingState (meeting_id user_email session_id : String)
    (maxIter : Nat) : MeetingState :=
  { meeting_id := meeting_id, user_email := user_email, session_id := session_id,
    status := "idle", iteration := 0, max_iterations := maxIter,
    meeting_data := Option.none, transcript := Option.none,
    past_meeting_patterns := [], reasoning_trace := [],
    meeting_summary := Option.none, key_decisions := [], action_items := [],
    risks := [], dependencies := [], mom_quality_score := 0,
    completeness_score := 0, mom := Option.none, tasks_to_create := [],
    wellness_concern := false }

/-- Embeds `graph.invoke` on the meeting workflow: `load_meeting_context` (whose
outgoing edge is unconditional), then the cyclic part. -/
def invokeMeeting (o : MeetingOracle) (fuel : Nat) (meeting_id user_email session_id : String)
    (maxIter : Nat) : Except String MeetingState :=
  runMeetingFrom o fuel
    (loadMeetingContext o (initialMeetingState meeting_id user_email session_id maxIter))

-- ============================================================
-- orchestration/super_graph.py : cross-agent trigger coordination
-- ============================================================

/-- Observable side effects of the super-graph nodes: invoking an agent
subgraph (`subInvoke`) and appending a name to `agents_invoked`
(`appendName`), in program order. -/
inductive SGEvent where
  | subInvoke (name : String)
  | appendName (name : String)
deriving DecidableEq, Repr

/-- The `email_result` dict.  `invoke_email_agent` hard-codes
`requires_task = False`; `invoke_briefing` stores only a `summary` key
(missing keys read as falsy, here field defaults). -/
structure EmailResult where
  status : String := ""
  message : String := ""
  requires_task : Bool := false
  summary : String := ""
deriving DecidableEq, Repr

/-- The `meeting_result` dict stored by `invoke_meeting_agent`. -/
structure MeetingAgentResult where
  status : String := ""
  message : String := ""
deriving DecidableEq, Repr

/-- The `task_result` dict.  Missing keys (`workload_high`, …) in the
fallback/briefing variants are the field defaults, matching Python's falsy
`dict.get`. -/
structure TaskResultDict where
  status : String := ""
  message : String := ""
  workload_high : Bool := false
  stress_detected : Bool := false
  workload_score : Option ℚ := Option.none
  trigger_wellness : Bool := false
  plan : String := ""
  stress_level : String := ""
deriving DecidableEq, Repr

/-- The `wellness_result` dict (fields consulted downstream). -/
structure WellnessResult where
  status : String := ""
  message : String := ""
  score : Option ℚ := Option.none
deriving DecidableEq, Repr

/-- The `followup_result` dict. -/
structure FollowupResult where
  status : String := ""
  message : String := ""
  nudge_count : Nat := 0
deriving DecidableEq, Repr

/-- The `report_result` dict. -/
structure ReportResult where
  status : String := ""
  message : String := ""
deriving DecidableEq, Repr

/-- One entry of `triggered_agents` (the `context` sub-dict is not read by
`execute_triggers` and is omitted). -/
structure Trigger where
  target : String
  reason : String
deriving DecidableEq, Repr

/-- Embeds `SuperGraphState` TypedDict (memory/episode bookkeeping fields that no
embedded node reads are omitted). -/
structure SuperState where
  user_input : String
  user_email : String
  session_id : String
  intent : Option String
  confidence : ℚ
  agents_invoked : List String
  email_result : Option EmailResult
  meeting_result : Option MeetingAgentResult
  task_result : Option TaskResultDict
  wellness_result : Option WellnessResult
  followup_result : Option FollowupResult
  report_result : Option ReportResult
  triggered_agents : List Trigger
  final_response : Option String
  actions_taken : List String
  reasoning_trace : List String
deriving DecidableEq, Repr

/-- Result of `plan_tasks_for_user` (task subgraph). -/
structure TaskSubOutcome where
  workload_score : ℚ
  stress_level : String
  reasoning : List String := []
  trigger_wellness : Bool := false
deriving DecidableEq, Repr

/-- Result of `check_wellness` (wellness subgraph). -/
structure WellnessSubOutcome where
  score : ℚ
  stress_level : String
  reasoning : List String := []
deriving DecidableEq, Repr

/-- Oracle for the externals of `super_graph.py`: the classified intent
(memory / LLM / keyword fallback of `classify_intent`), and the outcome of
each subgraph or gateway call (`Except.error` = raised exception, handled
by the caller's fallback branch). -/
structure SGOracle where
  intent : String
  task : Except String TaskSubOutcome
  wellness : Except String WellnessSubOutcome
  followup : Except String Nat
  report : Except String ℚ
  chat : Except String String

/-- Embeds `classify_intent`: the memory probe, gateway call and keyword fallback
only consult externals, so the classification outcome is the oracle's
`intent`; the node records it in the state. -/
def classifyIntent (o : SGOracle) (st : SuperState) : SuperState :=
  { st with intent := some o.intent,
            reasoning_trace := ["Classified intent as " ++ o.intent] }

/-- Embeds `route_to_agent` (`routing_map.get(intent, "handle_chat")`). -/
def routeToAgent (st : SuperState) : String :=
  let intent := st.intent.getD "chat"
  if intent = "email" then "invoke_email_agent"
  else if intent = "meeting" then "invoke_meeting_agent"
  else if intent = "task" then "invoke_task_agent"
  else if intent = "wellness" then "invoke_wellness_agent"
  else if intent = "followup" then "invoke_followup_agent"
  else if intent = "report" then "invoke_report_agent"
  else if intent = "briefing" then "invoke_briefing"
  else "handle_chat"

/-- The `if name not in agents_invoked: agents_invoked.append(name)`
pattern shared by every invoke node. -/
def appendAgent (l : List String) (a : String) : List String :=
  if a ∈ l then l else l ++ [a]

/-- The events that appending `a` to `l` emits (none when already there). -/
def appendAgentEvents (l : List String) (a : String) : List SGEvent :=
  if a ∈ l then [] else [SGEvent.appendName a]

/-- The `for agent in [...]: if agent not in ...: append` loop of
`invoke_briefing`. -/
def appendAgentsLoop : List String → List String → List String × List SGEvent
  | l, [] => (l, [])
  | l, n :: ns =>
    if n ∈ l then appendAgentsLoop l ns
    else
      let r := appendAgentsLoop (l ++ [n]) ns
      (r.1, SGEvent.appendName n :: r.2)

/-- Embeds `invoke_email_agent` (placeholder node: stores a canned result with
`requires_task = False` and invokes no subgraph). -/
def invokeEmailAgent (st : SuperState) : SuperState × List SGEvent :=
  let st1 := { st with
    email_result := some { status := "completed",
                           message := "Email processed with memory context",
                           requires_task := false },
    reasoning_trace := ["Invoked email agent"] }
  ({ st1 with agents_invoked := appendAgent st1.agents_invoked "email",
              actions_taken := st1.actions_taken ++ ["Processed email with learned patterns"] },
   appendAgentEvents st1.agents_invoked "email")

/-- Embeds `invoke_meeting_agent` (placeholder node, no subgraph invocation). -/
def invokeMeetingAgent (st : SuperState) : SuperState × List SGEvent :=
  let st1 := { st with
    meeting_result := some { status := "completed", message := "Meeting MoM generated" },
    reasoning_trace := ["Invoked meeting agent"] }
  ({ st1 with agents_invoked := appendAgent st1.agents_invoked "meeting",
              actions_taken := st1.actions_taken ++ ["Generated meeting minutes with action items"] },
   appendAgentEvents st1.agents_invoked "meeting")

/-- Embeds `invoke_task_agent`: calls `plan_tasks_for_user`, then appends
`"task"`. -/
def invokeTaskAgent (o : SGOracle) (st : SuperState) : SuperState × List SGEvent :=
  let st1 :=
    match o.task with
    | .ok r =>
      { st with
        task_result := some { status := "completed",
                              message := "Task plan generated",
                              workload_high := decide (r.workload_score > 70),
                              stress_detected := r.stress_level = "high" || r.stress_level = "critical",
                              workload_score := some r.workload_score,
                              trigger_wellness := r.trigger_wellness },
        reasoning_trace := "[TaskAgent] workload summary" :: r.reasoning.take 5 }
    | .error _ =>
      { st with
        task_result := some { status := "completed", message := "Task planning completed" },
        reasoning_trace := ["[TaskAgent] Completed with fallback"] }
  ({ st1 with agents_invoked := appendAgent st1.agents_invoked "task",
              actions_taken := st1.actions_taken ++ ["Created daily task plan with wellness check"] },
   SGEvent.subInvoke "task" :: appendAgentEvents st1.agents_invoked "task")

/-- Embeds `invoke_wellness_agent`: calls `check_wellness`, then appends
`"wellness"`. -/
def invokeWellnessAgent (o : SGOracle) (st : SuperState) : SuperState × List SGEvent :=
  let st1 :=
    match o.wellness with
    | .ok r =>
      { st with
        wellness_result := some { status := "completed",
                                  message := "Wellness check completed",
                                  score := some r.score },
        reasoning_trace := "[WellnessAgent] score summary" :: r.reasoning.take 5 }
    | .error _ =>
      { st with
        wellness_result := some { status := "completed", message := "Wellness check completed" },
        reasoning_trace := ["[WellnessAgent] Completed with fallback"] }
  ({ st1 with agents_invoked := appendAgent st1.agents_invoked "wellness",
              actions_taken := st1.actions_taken ++ ["Performed wellness assessment"] },
   SGEvent.subInvoke "wellness" :: appendAgentEvents st1.agents_invoked "wellness")

/-- Embeds `invoke_followup_agent`: calls `generate_followups`, then appends
`"followup"`. -/
def invokeFollowupAgent (o : SGOracle) (st : SuperState) : SuperState × List SGEvent :=
  let st1 :=
    match o.followup with
    | .ok n =>
      { st with followup_result := some { status := "completed",
                                          message := "Generated nudges for overdue items",
                                          nudge_count := n } }
    | .error _ =>
      { st with followup_result := some { status := "completed",
                                          message := "Followup nudges generated" } }
  ({ st1 with agents_invoked := appendAgent st1.agents_invoked "followup",
              actions_taken := st1.actions_taken ++ ["Generated followup nudges"],
              reasoning_trace := ["Invoked followup agent"] },
   SGEvent.subInvoke "followup" :: appendAgentEvents st1.agents_invoked "followup")

/-- Embeds `invoke_report_agent`: calls `generate_report_for_user`, then appends
`"report"`. -/
def invokeReportAgent (o : SGOracle) (st : SuperState) : SuperState × List SGEvent :=
  let st1 :=
    match o.report with
    | .ok _ =>
      { st with report_result := some { status := "completed",
                                        message := "EOD report generated" } }
    | .error _ =>
      { st with report_result := some { status := "completed",
                                        message := "Report generated" } }
  ({ st1 with agents_invoked := appendAgent st1.agents_invoked "report",
              actions_taken := st1.actions_taken ++ ["Generated productivity report"],
              reasoning_trace := ["Invoked report agent"] },
   SGEvent.subInvoke "report" :: appendAgentEvents st1.agents_invoked "report")

/-- Embeds `invoke_briefing`: runs the task, wellness and followup subgraphs, a
mock email summary, then the append loop over
`["email", "task", "wellness", "followup"]`.  The briefing variants of the
result dicts carry none of the trigger keys (`workload_high`, …). -/
def invokeBriefing (o : SGOracle) (st : SuperState) : SuperState × List SGEvent :=
  let st1 :=
    match o.task with
    | .ok r =>
      { st with task_result := some { plan := "priority breakdown",
                                      workload_score := some r.workload_score,
                                      stress_level := r.stress_level } }
    | .error _ => { st with task_result := some { plan := "N/A" } }
  let st2 :=
    match o.wellness with
    | .ok r => { st1 with wellness_result := some { score := some r.score,
                                                    status := r.stress_level } }
    | .error _ =>
      { st1 with wellness_result := some { score := some 70, status := "moderate" } }
  let st3 :=
    match o.followup with
    | .ok n => { st2 with followup_result := some { nudge_count := n } }
    | .error _ => { st2 with followup_result := some { nudge_count := 0 } }
  let st4 := { st3 with email_result := some { summary := "3 urgent emails, 12 unread" } }
  let r := appendAgentsLoop st4.agents_invoked ["email", "task", "wellness", "followup"]
  ({ st4 with agents_invoked := r.1,
              actions_taken := st4.actions_taken ++ ["Generated comprehensive morning briefing"],
              reasoning_trace := ["Briefing reasoning entries"] },
   SGEvent.subInvoke "task" :: SGEvent.subInvoke "wellness" :: SGEvent.subInvoke "followup" :: r.2)

/-- Embeds `handle_chat`. -/
def handleChat (o : SGOracle) (st : SuperState) : SuperState × List SGEvent :=
  let resp :=
    match o.chat with
    | .ok r => r
    | .error _ => "Could you please rephrase your request?"
  ({ st with final_response := some resp,
             actions_taken := st.actions_taken ++ ["Responded to chat query"],
             reasoning_trace := ["Handled chat query"] }, [])

/-- Embeds `check_cross_agent_triggers`. -/
def checkCrossAgentTriggers (st : SuperState) : SuperState :=
  let agents_invoked := st.agents_invoked
  if agents_invoked.length ≥ 4 then { st with triggered_agents := [] }
  else
    let t1 : List Trigger :=
      match st.email_result with
      | some er =>
        if "task" ∉ agents_invoked ∧ er.requires_task then
          [{ target := "task", reason := "Email contains action items" }]
        else []
      | Option.none => []
    let t2 : List Trigger :=
      match st.task_result with
      | some tr =>
        if "wellness" ∉ agents_invoked ∧ agents_invoked.length < 3 ∧
            (tr.workload_high || tr.stress_detected) then
          [{ target := "wellness", reason := "High workload detected" }]
        else []
      | Option.none => []
    { st with triggered_agents := t1 ++ t2 }

/-- Embeds `should_trigger_more_agents`. -/
def shouldTriggerMoreAgents (st : SuperState) : String :=
  if st.triggered_agents ≠ [] then "execute_triggers" else "generate_response"

/-- The `for trigger in state.get("triggered_agents", [])` loop of
`execute_triggers`, with `agents_invoked` refreshed after every
invocation. -/
def executeTriggersLoop (o : SGOracle) : List Trigger → SuperState → SuperState × List SGEvent
  | [], st => (st, [])
  | t :: ts, st =>
    let step : SuperState × List SGEvent :=
      if t.target = "task" ∧ "task" ∉ st.agents_invoked then invokeTaskAgent o st
      else if t.target = "wellness" ∧ "wellness" ∉ st.agents_invoked then invokeWellnessAgent o st
      else if t.target = "followup" ∧ "followup" ∉ st.agents_invoked then invokeFollowupAgent o st
      else (st, [])
    let rest := executeTriggersLoop o ts step.1
    (rest.1, step.2 ++ rest.2)

/-- Embeds `execute_triggers`: run the loop, then clear `triggered_agents`. -/
def executeTriggers (o : SGOracle) (st : SuperState) : SuperState × List SGEvent :=
  let r := executeTriggersLoop o st.triggered_agents st
  ({ r.1 with triggered_agents := [] }, r.2)

/-- Embeds `generate_response` (string aggregation; no agent bookkeeping). -/
def generateResponse (st : SuperState) : SuperState :=
  match st.final_response with
  | some _ => st
  | Option.none =>
    { st with final_response := some "Aggregated agent results",
              reasoning_trace := ["Generated final response"] }

/-- Embeds `record_episode` on the super graph: external memory write only. -/
def recordEpisodeSG (st : SuperState) : SuperState := st

/-- The initial state built by `process_user_request`. -/
def initialSuperState (user_input user_email session_id : String) : SuperState :=
  { user_input := user_input, user_email := user_email, session_id := session_id,
    intent := Option.none, confidence := 0, agents_invoked := [],
    email_result := Option.none, meeting_result := Option.none,
    task_result := Option.none, wellness_result := Option.none,
    followup_result := Option.none, report_result := Option.none,
    triggered_agents := [], final_response := Option.none,
    actions_taken := [], reasoning_trace := [] }

/-- Dispatch of the routed agent node. -/
def runAgentNode (o : SGOracle) (node : String) (st : SuperState) :
    SuperState × List SGEvent :=
  if node = "invoke_email_agent" then invokeEmailAgent st
  else if node = "invoke_meeting_agent" then invokeMeetingAgent st
  else if node = "invoke_task_agent" then invokeTaskAgent o st
  else if node = "invoke_wellness_agent" then invokeWellnessAgent o st
  else if node = "invoke_followup_agent" then invokeFollowupAgent o st
  else if node = "invoke_report_agent" then invokeReportAgent o st
  else if node = "invoke_briefing" then invokeBriefing o st
  else handleChat o st

/-- Embeds `process_user_request`: one full run of the compiled super graph, with
the trace of subgraph-invocation / append events. -/
def processUserRequest (o : SGOracle) (user_input user_email session_id : String) :
    SuperState × List SGEvent :=
  let st1 := classifyIntent o (initialSuperState user_input user_email session_id)
  let step1 := runAgentNode o (routeToAgent st1) st1
  let st2 := checkCrossAgentTriggers step1.1
  let step2 :=
    if shouldTriggerMoreAgents st2 = "execute_triggers" then executeTriggers o st2
    else (st2, [])
  (recordEpisodeSG (generateResponse step2.1), step1.2 ++ step2.2)

-- ============================================================
-- orchestration/autonomous_graph.py : email pipeline
-- agents/autonomous_inbox.py : monitor boundary
-- ============================================================

/-- Embeds `pgetD p k d` is Python `p.get(k, d)`. -/
def pgetD (p : Payload) (k : String) (d : PyVal) : PyVal :=
  (pget p k).getD d

/-- Embeds `email.get(k, "").lower()`: a missing key yields `""`, a string is
lowercased, any other stored value raises `AttributeError`. -/
def pyGetStrLower (email : Payload) (k : String) : Except String String :=
  match pget email k with
  | Option.none => .ok ""
  | some (.str s) => .ok s.toLower
  | some _ => .error "AttributeError: object has no attribute lower"

/-- Embeds `email.get(k, d)` used as a string (`endswith`/`split`): a non-string
stored value raises `AttributeError` at the first method call on it. -/
def pyGetStr (email : Payload) (k : String) (d : String) : Except String String :=
  match pget email k with
  | Option.none => .ok d
  | some (.str s) => .ok s
  | some _ => .error "AttributeError: object has no attribute endswith"

/-- Embeds `urgent_signals` in `classify_email`. -/
def URGENT_SIGNALS : List String :=
  ["urgent", "asap", "immediately", "critical", "blocker", "eod", "today"]

/-- Embeds `action_signals` in `classify_email`. -/
def ACTION_SIGNALS : List String :=
  ["can you", "could you", "please", "need", "require", "deadline", "by when", "review",
   "sync up", "sync-up", "perspective", "thoughts", "feedback", "discuss",
   "let me know", "get back to", "follow up", "following up", "waiting for",
   "action item", "next step", "schedule", "meeting", "call", "availability",
   "concerns", "issues", "blockers", "problems", "risks"]

/-- Bullet/number markers scanned by `classify_email`. -/
def LIST_MARKERS : List String := ["- ", "* ", "1.", "2.", "+ "]

/-- Markers scanned by the informational branch of `plan_actions`. -/
def DISCUSSION_MARKERS : List String :=
  ["- ", "* ", "1.", "2.", "+", "concerns", "areas", "points", "thoughts"]

/-- Embeds `important_words` in `_extract_topics`. -/
def IMPORTANT_WORDS : List String :=
  ["acme", "techvision", "globaltech", "api", "migration", "integration",
   "deadline", "urgent", "blocker", "review", "approval", "budget",
   "meeting", "call", "schedule", "timeline", "status", "update"]

/-- Embeds `_extract_topics`. -/
def extractTopics (text : String) : List String :=
  (IMPORTANT_WORDS.filter (fun w => strContains text.toLower w)).take 5

/-- Embeds `_dedupe_by_key`: drop items whose key is missing/falsy or already
seen. -/
def dedupeGo (key : String) (seen : List PyVal) : List Payload → List Payload
  | [] => []
  | item :: rest =>
    let k := pgetD item key PyVal.none
    if k.truthy && k ∉ seen then item :: dedupeGo key (k :: seen) rest
    else dedupeGo key seen rest

/-- Embeds `_dedupe_by_key` entry point. -/
def dedupeByKey (items : List Payload) (key : String) : List Payload :=
  dedupeGo key [] items

/-- The analysis dict built by `classify_email` (`timestamp` omitted). -/
structure EmailAnalysis where
  category : String
  priority : String
  is_urgent : Bool
  is_external : Bool
  sender : String
  subject : String
  key_topics : List String
deriving DecidableEq, Repr

/-- Embeds `related_context` built by `gather_context`. -/
structure RelatedContext where
  emails : List Payload := []
  tasks : List Payload := []
  meetings : List Payload := []
deriving DecidableEq, Repr

/-- One entry of `planned_actions`.  The long f-string params
(`title`, `description`, `key_points`, `tags`) are cut down to the fields
later nodes read; no embedded step inspects the dropped ones. -/
structure PlannedAction where
  action : String
  params : Payload := []
  requires_approval : Bool := false
  reason : String := ""
deriving DecidableEq, Repr

/-- Pending-approval dict built inside `execute_action`. -/
structure GraphPendingAction where
  action_id : String
  action_type : String
  description : String := ""
  payload : Payload := []
  reason : String := ""
  source_email_id : PyVal := PyVal.none
  status : String := "pending"
deriving DecidableEq, Repr

/-- Embeds `EmailProcessingState` TypedDict (memory-recall fields that no embedded
node reads are omitted; note it has NO `error` field and no `error`
status). -/
structure EmailState where
  email : Payload
  user_email : String
  status : String
  iteration : Nat
  max_iterations : Nat
  current_thought : String
  reasoning_trace : List String
  email_analysis : Option EmailAnalysis
  related_context : RelatedContext
  planned_actions : List PlannedAction
  executed_actions : List String
  pending_approvals : List GraphPendingAction
  final_summary : Option String
deriving DecidableEq, Repr

/-- Outcome of one `executor.execute` tool call (`ToolExecutor.execute`
catches every exception and returns a `success` flag, so it is total). -/
structure ToolOutcome where
  success : Bool
  error : Option String := Option.none
deriving DecidableEq, Repr

/-- Per-topic search results in `gather_context`; `Option.none` for a kind
models `success = False` from the tool executor. -/
structure TopicSearch where
  emails : Option (List Payload) := some []
  tasks : Option (List Payload) := some []
  meetings : Option (List Payload) := some []
deriving DecidableEq, Repr

/-- Oracle for the externals of the email pipeline: the search tools of
`gather_context`, direct tool execution in `execute_action`, the uuid
supply for queued approvals, and `datetime.utcnow() + timedelta(days=n)`
for follow-up due dates. -/
structure EmailOracle where
  search : String → TopicSearch
  tool : String → Payload → ToolOutcome
  freshId : Nat → String
  dueDate : Nat → String

/-- Embeds `classify_email`. -/
def classifyEmail (st : EmailState) : Except String EmailState := do
  let email := st.email
  let subject ← pyGetStrLower email "subject"
  let body ← pyGetStrLower email "body_text"
  let from_email ← pyGetStr email "from_email" ""
  let is_urgent := URGENT_SIGNALS.any (fun s => strContains subject s || strContains body s)
  let is_external := !(from_email.endsWith "@contoso.com")
  let pre_category := pgetD email "actionability_gt" (.str "unknown")
  let cp : String × String :=
    if pre_category = .str "actionable" || is_urgent then
      ("actionable", if is_urgent then "P0" else "P1")
    else if pre_category = .str "informational" then ("informational", "P3")
    else
      let has_list := LIST_MARKERS.any (fun m => strContains body m)
      let has_action := ACTION_SIGNALS.any (fun s => strContains body s) || has_list
      (if has_action then "actionable" else "informational",
       if has_action then "P2" else "P3")
  let analysis : EmailAnalysis :=
    { category := cp.1, priority := cp.2, is_urgent := is_urgent,
      is_external := is_external, sender := from_email,
      subject := match pget email "subject" with | some (.str s) => s | _ => "",
      key_topics := extractTopics (subject ++ " " ++ body) }
  return { st with
    status := if cp.1 = "actionable" then "gathering_context" else "planning",
    email_analysis := some analysis,
    current_thought := "Email Classification Complete: " ++ cp.1,
    reasoning_trace := st.reasoning_trace ++ ["classify"],
    iteration := st.iteration + 1 }

/-- Embeds `gather_context` (`ToolExecutor` search calls behind the oracle). -/
def gatherContext (o : EmailOracle) (st : EmailState) : EmailState :=
  let topics := (match st.email_analysis with
                 | some a => a.key_topics
                 | Option.none => []).take 2
  let ctx := topics.foldl
    (fun (c : RelatedContext) topic =>
      let r := o.search topic
      { emails := c.emails ++ r.emails.getD [],
        tasks := c.tasks ++ r.tasks.getD [],
        meetings := c.meetings ++ r.meetings.getD [] })
    { emails := [], tasks := [], meetings := [] }
  { st with status := "planning",
            related_context := { emails := dedupeByKey ctx.emails "email_id",
                                 tasks := dedupeByKey ctx.tasks "task_id",
                                 meetings := dedupeByKey ctx.meetings "meeting_id" },
            current_thought := "Context Gathering Complete",
            reasoning_trace := st.reasoning_trace ++ ["gather_context"] }

/-- Embeds `plan_actions`. -/
def planActions (o : EmailOracle) (st : EmailState) : Except String EmailState := do
  let email := st.email
  let category := match st.email_analysis with | some a => a.category | Option.none => "informational"
  let priority := match st.email_analysis with | some a => a.priority | Option.none => "P3"
  let is_urgent := match st.email_analysis with | some a => a.is_urgent | Option.none => false
  let email_id := pgetD email "email_id" PyVal.none
  if category = "actionable" then
    let followup_days : Nat :=
      if priority = "P0" then 0 else if priority = "P1" then 1
      else if priority = "P2" then 2 else if priority = "P3" then 3 else 2
    let followup_severity :=
      if priority = "P0" then "critical" else if priority = "P1" then "high"
      else if priority = "P2" then "medium" else if priority = "P3" then "low" else "medium"
    let followup_due := o.dueDate followup_days
    let acts : List PlannedAction :=
      [{ action := "create_task",
         params := [("priority", .str priority), ("source_type", .str "email"),
                    ("source_ref_id", email_id)],
         reason := "auto-created task" },
       { action := "draft_email_reply",
         params := [("email_id", email_id),
                    ("tone", .str (if is_urgent then "urgent" else "professional"))],
         reason := "Auto-drafted reply" },
       { action := "create_followup",
         params := [("entity_type", .str "email"), ("entity_id", email_id),
                    ("due_date", .str followup_due), ("channel", .str "email"),
                    ("severity", .str followup_severity)],
         reason := "Reminder to respond" }] ++
      (if st.related_context.tasks ≠ [] then
        [{ action := "create_followup",
           params := [("entity_type", .str "task"),
                      ("entity_id", pgetD (st.related_context.tasks.headD []) "task_id" PyVal.none),
                      ("due_date", .str followup_due), ("channel", .str "email"),
                      ("severity", .str followup_severity)],
           reason := "Link to related task" }]
       else [])
    return { st with status := "executing", planned_actions := acts,
                     current_thought := "Action Planning Complete",
                     reasoning_trace := st.reasoning_trace ++ ["plan_actions"] }
  else
    let body ← pyGetStrLower email "body_text"
    let has_discussion_points := DISCUSSION_MARKERS.any (fun m => strContains body m)
    let acts : List PlannedAction :=
      (if has_discussion_points then
        [{ action := "create_task",
           params := [("priority", .str "P3"), ("source_type", .str "email"),
                      ("source_ref_id", email_id)],
           reason := "Auto-created review task" },
         { action := "create_followup",
           params := [("entity_type", .str "email"), ("entity_id", email_id),
                      ("due_date", .str (o.dueDate 2)), ("channel", .str "email"),
                      ("severity", .str "low")],
           reason := "Reminder to respond" }]
       else []) ++
      [{ action := "mark_email_processed",
         params := [("email_id", email_id), ("category", .str "informational")],
         reason := "Email processed" }]
    return { st with status := "executing", planned_actions := acts,
                     current_thought := "Action Planning Complete",
                     reasoning_trace := st.reasoning_trace ++ ["plan_actions"] }

/-- Embeds `execute_action` node: pop the next planned action, queue it for
approval or execute it via the tool executor.  Note there is no exception
handler here and `EmailProcessingState` has no `error` field. -/
def executeActionNode (o : EmailOracle) (st : EmailState) : EmailState :=
  match st.planned_actions with
  | [] =>
    { st with status := "completed", current_thought := "All actions processed.",
              reasoning_trace := st.reasoning_trace ++ ["execute_complete"] }
  | action :: remaining =>
    if action.requires_approval then
      let pa : GraphPendingAction :=
        { action_id := o.freshId st.pending_approvals.length,
          action_type := action.action,
          description := action.action ++ ": " ++ action.reason,
          payload := action.params, reason := action.reason,
          source_email_id := pgetD st.email "email_id" PyVal.none,
          status := "pending" }
      { st with status := if remaining ≠ [] then "executing" else "check_completion",
                planned_actions := remaining,
                pending_approvals := st.pending_approvals ++ [pa],
                current_thought := "Action Queued for Approval: " ++ action.action,
                executed_actions := st.executed_actions ++ [action.action ++ " (queued for approval)"],
                reasoning_trace := st.reasoning_trace ++ ["execute_action"],
                iteration := st.iteration + 1 }
    else
      let result := o.tool action.action action.params
      { st with status := if remaining ≠ [] then "executing" else "check_completion",
                planned_actions := remaining,
                current_thought := (if result.success then "Action Executed: "
                                    else "Action Failed: ") ++ action.action,
                executed_actions := st.executed_actions ++
                  [if result.success then action.action else action.action ++ " (failed)"],
                reasoning_trace := st.reasoning_trace ++ ["execute_action"],
                iteration := st.iteration + 1 }

/-- Embeds `check_completion` node. -/
def checkCompletion (st : EmailState) : EmailState :=
  if st.planned_actions = [] ∧ st.iteration ≥ 2 then
    let status := if st.pending_approvals ≠ [] then "awaiting_approval" else "completed"
    { st with status := status, final_summary := some "Processing Complete",
              current_thought := "Processing Complete",
              reasoning_trace := st.reasoning_trace ++ ["completion_check"] }
  else if st.iteration ≥ st.max_iterations then
    { st with status := "completed",
              final_summary := some "Max iterations reached. Stopping.",
              reasoning_trace := st.reasoning_trace ++ ["max_iterations"] }
  else
    { st with status := "executing", reasoning_trace := st.reasoning_trace ++ ["continue"] }

/-- Embeds `route_after_classify`. -/
def routeAfterClassify (st : EmailState) : String :=
  if (match st.email_analysis with
      | some a => a.category
      | Option.none => "informational") = "actionable"
  then "gather_context" else "plan_actions"

/-- Embeds `route_after_execute`. -/
def routeAfterExecute (st : EmailState) : String :=
  if st.planned_actions ≠ [] then "execute_action" else "check_completion"

/-- Embeds `route_after_check`. -/
def routeAfterCheck (st : EmailState) : String :=
  if st.status = "completed" ∨ st.status = "awaiting_approval" then "__end__"
  else if st.iteration < st.max_iterations then "plan_actions"
  else "__end__"

/-- Node dispatch of the compiled email graph. -/
def emailNode (o : EmailOracle) (name : String) (st : EmailState) :
    Except String EmailState :=
  if name = "classify" then classifyEmail st
  else if name = "gather_context" then .ok (gatherContext o st)
  else if name = "plan_actions" then planActions o st
  else if name = "execute_action" then .ok (executeActionNode o st)
  else if name = "check_completion" then .ok (checkCompletion st)
  else .ok st

/-- Edge table of `build_email_processing_graph` (`none` is `END`). -/
def emailNextNode (name : String) (st : EmailState) : Option String :=
  if name = "classify" then some (routeAfterClassify st)
  else if name = "gather_context" then some "plan_actions"
  else if name = "plan_actions" then some "execute_action"
  else if name = "execute_action" then some (routeAfterExecute st)
  else if name = "check_completion" then
    (if routeAfterCheck st = "__end__" then Option.none else some "plan_actions")
  else Option.none

/-- Embeds `graph.stream`: the list of `(node, state)` events yielded before the
run ends, plus the raised exception if a node raised (`some e`) or the
recursion budget ran out (the framework's `GraphRecursionError`). -/
def streamEmailGraph (o : EmailOracle) :
    Nat → String → EmailState → List (String × EmailState) × Option String
  | 0, _, _ => ([], some "GraphRecursionError")
  | fuel + 1, node, st =>
    match emailNode o node st with
    | .error e => ([], some e)
    | .ok st2 =>
      match emailNextNode node st2 with
      | Option.none => ([(node, st2)], Option.none)
      | some n =>
        let r := streamEmailGraph o fuel n st2
        ((node, st2) :: r.1, r.2)

/-- The framework's default recursion limit. -/
def LANGGRAPH_RECURSION_LIMIT : Nat := 25

/-- The initial state built by `process_email_with_graph`. -/
def initialEmailState (email : Payload) (user_email : String) : EmailState :=
  { email := email, user_email := user_email, status := "idle", iteration := 0,
    max_iterations := 10, current_thought := "", reasoning_trace := [],
    email_analysis := Option.none, related_context := {}, planned_actions := [],
    executed_actions := [], pending_approvals := [], final_summary := Option.none }

/-- Embeds `process_email_with_graph`: build the graph and stream it. -/
def processEmailWithGraph (o : EmailOracle) (email : Payload) (user_email : String) :
    List (String × EmailState) × Option String :=
  streamEmailGraph o LANGGRAPH_RECURSION_LIMIT "classify" (initialEmailState email user_email)

/-- Observable monitor effects: UI event emission, enqueueing an approval
on the global queue, and `repo.mark_email_processed`. -/
inductive MonEffect where
  | emit (event_type : String) (email_id : PyVal) (content : String)
  | queueApproval (action_type : String)
  | markProcessed (email_id : PyVal) (category : String)
deriving DecidableEq, Repr

/-- The node-name → event-type mapping in `_process_with_langgraph`. -/
def nodeEventType (node : String) : String :=
  if node = "classify" then "thinking"
  else if node = "gather_context" then "action"
  else if node = "plan_actions" then "thinking"
  else if node = "execute_action" then "action"
  else "observation"

/-- Effects of consuming one streamed `(node, state)` event in
`_process_with_langgraph`: emit the thought (when non-empty), then queue +
announce every listed pending approval. -/
def consumeStreamEvent (email : Payload) (ev : String × EmailState) : List MonEffect :=
  let email_id := pgetD email "email_id" PyVal.none
  (if ev.2.current_thought ≠ "" then
    [MonEffect.emit (nodeEventType ev.1) email_id ev.2.current_thought]
   else []) ++
  (ev.2.pending_approvals.filter (fun pa => pa.status = "pending")).flatMap
    (fun pa => [MonEffect.queueApproval pa.action_type,
                MonEffect.emit "approval_needed" email_id
                  ("Action queued for approval: " ++ pa.action_type)])

/-- Embeds `AutonomousInboxProcessor._process_with_langgraph`: consume the stream,
then mark the email processed when a final state was seen.  A raised
exception (second component `some e`) propagates to the caller after the
already-yielded events were consumed. -/
def processWithLanggraph (o : EmailOracle) (email : Payload) (user_email : String) :
    List MonEffect × Option String :=
  let r := processEmailWithGraph o email user_email
  let effs := r.1.flatMap (consumeStreamEvent email)
  match r.2 with
  | some e => (effs, some e)
  | Option.none =>
    match r.1.getLast? with
    | some last =>
      let fin := last.2
      let category := match fin.email_analysis with
                      | some a => a.category
                      | Option.none => "unknown"
      (effs ++ [MonEffect.markProcessed (pgetD email "email_id" PyVal.none) category,
                MonEffect.emit "completed" (pgetD email "email_id" PyVal.none)
                  (fin.final_summary.getD "Processing complete")],
       Option.none)
    | Option.none => (effs, Option.none)

/-- Embeds `AutonomousInboxProcessor._process_single_email` (the
`use_langgraph = True` construction default): emit the start event, run the
pipeline, and on an escaped exception emit the error event and mark the
email processed anyway.  No exception leaves this function. -/
def processSingleEmail (o : EmailOracle) (user_email : String) (email : Payload)
    (ps : ProcessorState) : ProcessorState × List MonEffect :=
  let email_id := pgetD email "email_id" (.str "unknown")
  let startEff := MonEffect.emit "new_email" email_id "Processing email"
  let r := processWithLanggraph o email user_email
  match r.2 with
  | Option.none =>
    ({ ps with current_email_id := Option.none,
               processed_count := ps.processed_count + 1 },
     startEff :: r.1)
  | some e =>
    ({ ps with current_email_id := Option.none,
               error_count := ps.error_count + 1 },
     startEff :: r.1 ++
       [MonEffect.emit "error" email_id ("Failed to process email: " ++ e),
        MonEffect.markProcessed email_id "error"])

/-- Recognizer for `mark_email_processed` effects. -/
def isMarkEffect : MonEffect → Bool
  | .markProcessed _ _ => true
  | _ => false

-- ============================================================
-- Derived measures and claim-level predicates
-- ============================================================

/-- The MoM a given analysis result leads to, restricted to the fields
`quality_check_mom` scores (`momQualityPoints` reads nothing else). -/
def momOfAnalysis (a : Analysis) : Mom :=
  { meeting_id := "", title := "", date := "", attendees := [], duration_mins := 0,
    summary := a.summary, decisions := a.decisions, action_items := a.action_items,
    risks := a.risks, dependencies := a.dependencies }

/-- Quality points a pass scores when the analysis oracle returned `a`. -/
def analysisPoints (a : Analysis) : ℚ :=
  momQualityPoints (momOfAnalysis a)

/-- Statement of the spec sentence "appending its name to
`invoked_pipelines` BEFORE invocation": every subgraph invocation in the
trace is preceded by the append of the same name. -/
def appendedBeforeInvoked (tr : List SGEvent) : Prop :=
  ∀ (i : Nat) (n : String), tr[i]? = some (SGEvent.subInvoke n) →
    ∃ j : Nat, j < i ∧ tr[j]? = some (SGEvent.appendName n)

-- ============================================================
-- Concrete inputs for witnesses and counterexamples
-- ============================================================

/-- A DataRepo oracle whose operations all succeed. -/
def okRepo : RepoModel :=
  { create_task := fun _ => .ok (.str "task_created"),
    update_task := fun _ _ => .ok true,
    save_draft := fun _ _ => .ok (.str "draft_saved"),
    create_followup := fun _ => .ok (.str "followup_created"),
    create_meeting := fun _ => .ok (.str "meeting_created") }

/-- A fresh pending `send_email` action. -/
def c2Action : PendingAction :=
  { action_id := "pa_c2", action_type := "send_email",
    payload := [("to", .str "a@contoso.com")], status := "pending" }

/-- A fresh pending `update_task` action whose payload holds a `task_id`. -/
def c8Action : PendingAction :=
  { action_id := "pa_c8", action_type := "update_task",
    payload := [("task_id", .str "t1")], status := "pending" }

/-- An edited payload that still contains the `task_id` key. -/
def c8NewPayload : Payload := [("task_id", .str "t1"), ("priority", .str "P0")]

/-- A fresh pending `create_task` action. -/
def c9Action : PendingAction :=
  { action_id := "pa_c9", action_type := "create_task",
    payload := [("priority", .str "P0")], status := "pending" }

/-- A meeting record that the lookup oracle finds. -/
def c1Meeting : Meeting := { title := "Demo sync", duration_mins := 30 }

/-- An analysis whose MoM scores 30 points: quality 0.3, below the 0.5
retry threshold. -/
def c1Analysis : Analysis := { summary := "aaaaaaaaaaaaaaaaaaaaaaaaa" }

/-- Meeting oracle: meeting found, every pass scores quality 0.3. -/
def c1Oracle : MeetingOracle :=
  { lookup := .ok (some c1Meeting), transcript := some "transcript",
    patterns := [], analysis := fun _ => .ok c1Analysis }

/-- An email-pipeline oracle with benign externals. -/
def c4Oracle : EmailOracle :=
  { search := fun _ => {}, tool := fun _ _ => { success := true },
    freshId := fun n => "pa_x" ++ toString n, dueDate := fun _ => "2026-10-14" }

/-- An inbox email whose `subject` holds a non-string value: `classify_email`
raises `AttributeError` at `email.get("subject", "").lower()`. -/
def c4BadEmail : Payload := [("email_id", .str "e_bad"), ("subject", .int 5)]

/-- A super-graph oracle that routes to the task agent with a high-stress
outcome, so a wellness trigger fires. -/
def c5Oracle : SGOracle :=
  { intent := "task",
    task := .ok { workload_score := 90, stress_level := "high" },
    wellness := .ok { score := 30, stress_level := "high" },
    followup := .ok 0, report := .ok 0, chat := .ok "hi" }

/-- The coordinator state right before `execute_triggers` on the task
route: the task agent ran, a wellness trigger is queued. -/
def c5State : SuperState :=
  { initialSuperState "plan my tasks" "u@contoso.com" "s1" with
      agents_invoked := ["task"],
      task_result := some { workload_high := true },
      triggered_agents := [{ target := "wellness", reason := "High workload detected" }] }

/-- A processor state holding three events with the default cap of 100. -/
def c10Processor : ProcessorState :=
  { events := [{ event_id := "e1" }, { event_id := "e2" }, { event_id := "e3" }],
    max_events := 100 }

/-- A fresh event to add. -/
def c10Event : AgentEvent := { event_id := "e4", event_type := "thinking" }

/-- A scheduler state holding one queued event. -/
def c10Scheduler : SchedulerState := { event_queue := [{ title := "old" }] }

/-- A fresh proactive event to queue. -/
def c10ProEvent : ProactiveEvent := { title := "Burnout Risk Detected" }

-- ============================================================
-- Theorems
-- ============================================================

/-- Helper: Python `xs[-m:]` is a suffix of `xs`. -/
theorem pySliceLast_suffix {α : Type} (l : List α) (m : Nat) : pySliceLast l m <:+ l := by
  unfold pySliceLast
  split
  · exact List.suffix_refl l
  · exact List.drop_suffix _ l

/-- Helper: for a positive cap, Python `xs[-m:]` has at most `m`
elements. -/
theorem pySliceLast_length {α : Type} (l : List α) (m : Nat) (hm : 0 < m) :
    (pySliceLast l m).length ≤ m := by
  unfold pySliceLast
  split
  · omega
  · rw [List.length_drop]
    omega

/-- C10: after every `ProcessorState.add_event` the event list holds at
most `max_events` entries (for the positive default 100), and after every
`ProactiveScheduler._queue_event` the queue holds at most 50; in both
cases the retained events are a suffix of append order, so the dropped
events are the oldest. -/
theorem event_buffers_bounded :
    (∀ (st : ProcessorState) (e : AgentEvent), 0 < st.max_events →
      (addEvent st e).events.length ≤ st.max_events ∧
      (addEvent st e).events <:+ (st.events ++ [e])) ∧
    (∀ (sch : SchedulerState) (e : ProactiveEvent),
      (queueEvent sch e).event_queue.length ≤ 50 ∧
      (queueEvent sch e).event_queue <:+ (sch.event_queue ++ [e])) := by
  constructor
  · intro st e hm
    unfold addEvent
    dsimp only
    split <;> dsimp only
    · exact ⟨pySliceLast_length _ _ hm, pySliceLast_suffix _ _⟩
    · next h => exact ⟨by omega, List.suffix_refl _⟩
  · intro sch e
    unfold queueEvent
    dsimp only
    split <;> dsimp only
    · exact ⟨pySliceLast_length _ _ (by omega), pySliceLast_suffix _ _⟩
    · next h => exact ⟨by omega, List.suffix_refl _⟩

/-- Witness for C10 at the default cap 100 and the fixed cap 50. -/
theorem event_buffers_bounded_witness :
    0 < c10Processor.max_events ∧
    ((addEvent c10Processor c10Event).events.length ≤ c10Processor.max_events ∧
     (addEvent c10Processor c10Event).events <:+ (c10Processor.events ++ [c10Event])) ∧
    ((queueEvent c10Scheduler c10ProEvent).event_queue.length ≤ 50 ∧
     (queueEvent c10Scheduler c10ProEvent).event_queue <:+
       (c10Scheduler.event_queue ++ [c10ProEvent])) :=
  ⟨by decide, event_buffers_bounded.1 c10Processor c10Event (by decide),
   event_buffers_bounded.2 c10Scheduler c10ProEvent⟩

/-- C7: `requires_approval` is a pure function over three tiers: members
of the never-required set yield `false`, members of the always-required
set yield `true`, `create_task`/`update_task` are conditional on priority
∈ {P0, P1}, and any action type in no tier defaults to `true`
(fail-safe). -/
theorem requires_approval_tiers :
    (∀ (t : String) (p : Payload),
        t ∉ NEVER_REQUIRE → t ∉ ALWAYS_REQUIRE → t ∉ CONDITIONAL_KEYS →
        requiresApproval t p = true) ∧
    (∀ (t : String) (p : Payload), t ∈ NEVER_REQUIRE → requiresApproval t p = false) ∧
    (∀ (t : String) (p : Payload), t ∈ ALWAYS_REQUIRE → requiresApproval t p = true) ∧
    (∀ p : Payload, (requiresApproval "create_task" p = true ↔
      pget p "priority" = some (.str "P0") ∨ pget p "priority" = some (.str "P1"))) ∧
    (∀ p : Payload, (requiresApproval "update_task" p = true ↔
      pmem p "priority" = true ∧
        (pget p "priority" = some (.str "P0") ∨ pget p "priority" = some (.str "P1")))) := by
  refine ⟨?_, ?_, ?_, ?_, ?_⟩
  · intro t p h1 h2 h3
    simp [requiresApproval, h1, h2, h3]
  · intro t p h
    simp [requiresApproval, h]
  · intro t p h
    have hn : t ∉ NEVER_REQUIRE := by
      fin_cases h <;> decide
    simp [requiresApproval, hn, h]
  · intro p
    simp only [requiresApproval]
    rw [if_neg (by decide), if_neg (by decide), if_pos (by decide)]
    simp [conditionalCheck]
  · intro p
    simp only [requiresApproval]
    rw [if_neg (by decide), if_neg (by decide), if_pos (by decide)]
    rw [conditionalCheck, if_neg (by decide), if_pos (by decide)]
    simp [and_assoc]

/-- Witness for C7: an action type in no tier requires approval. -/
theorem requires_approval_tiers_witness :
    "launch_rocket" ∉ NEVER_REQUIRE ∧ "launch_rocket" ∉ ALWAYS_REQUIRE ∧
    "launch_rocket" ∉ CONDITIONAL_KEYS ∧ requiresApproval "launch_rocket" [] = true :=
  ⟨by decide, by decide, by decide,
   requires_approval_tiers.1 "launch_rocket" [] (by decide) (by decide) (by decide)⟩

/-- C8 counterexample: on `edit_and_approve` of an `update_task` action
whose new payload holds a `task_id`, the stored record keeps
`original_payload` but its `payload` is NOT the new payload: execution
popped the `task_id` key out of it. -/
theorem edit_and_approve_payload_counterexample :
    ((editAndApprove okRepo [c8Action] "pa_c8" c8NewPayload "user" "t1").1.map
        (fun r => (r.original_payload, r.payload))) =
      some (some [("task_id", PyVal.str "t1")], [("priority", PyVal.str "P0")]) ∧
    ((editAndApprove okRepo [c8Action] "pa_c8" c8NewPayload "user" "t1").1.all
        (fun r => r.payload == c8NewPayload)) = false := by
  constructor
  · decide
  · decide

/-- Helper: `_execute_action` leaves the record unchanged except that the
`update_task` branch pops `task_id` from its payload. -/
theorem executeAction_snd (repo : RepoModel) (a : PendingAction) :
    (executeAction repo a).2 =
      if a.action_type = "update_task" then { a with payload := premove a.payload "task_id" }
      else a := by
  by_cases hu : a.action_type = "update_task"
  · rw [if_pos hu]
    unfold executeAction
    rw [if_neg (by rw [hu]; decide), if_pos hu]
    dsimp only
    cases hp : pget a.payload "task_id" with
    | none => rfl
    | some v =>
      dsimp only
      split
      · cases repo.update_task v (premove a.payload "task_id") <;> rfl
      · rfl
  · rw [if_neg hu]
    unfold executeAction
    split_ifs <;> (try dsimp only) <;>
      first
        | rfl
        | (cases repo.create_task a.payload <;> rfl)
        | (cases repo.save_draft "email_reply" a.payload <;> rfl)
        | (cases repo.create_followup a.payload <;> rfl)
        | (cases repo.create_meeting a.payload <;> rfl)

/-- Helper: when the first record matching the id is not pending,
`approve_action` returns `None` and leaves the queue untouched. -/
theorem approveGo_nonpending (repo : RepoModel) (action_id rb now : String)
    (notes : Option String) :
    ∀ (q : List PendingAction) (a0 : PendingAction),
      q.find? (fun a => a.action_id == action_id) = some a0 →
      a0.status ≠ "pending" →
      approveGo repo action_id rb notes now q = (Option.none, q) := by
  intro q
  induction q with
  | nil => intro a0 hfind _; simp at hfind
  | cons a rest ih =>
    intro a0 hfind hstat
    by_cases hb : a.action_id = action_id
    · rw [List.find?_cons_of_pos _ (by simpa using hb)] at hfind
      injection hfind with ha0
      subst ha0
      unfold approveGo
      rw [if_pos hb, if_pos hstat]
    · rw [List.find?_cons_of_neg _ (by simpa using hb)] at hfind
      unfold approveGo
      rw [if_neg hb]
      rw [ih a0 hfind hstat]

/-- Helper: approving the first pending record matching the id executes it
and rewrites it in place; the updated record is executed or
execution-failed, stores the execution result, keeps `original_payload`,
and keeps its payload except for the `task_id` pop of `update_task`. -/
theorem approveGo_pending (repo : RepoModel) (action_id rb now : String)
    (notes : Option String) :
    ∀ (q : List PendingAction) (a0 : PendingAction),
      q.find? (fun a => a.action_id == action_id) = some a0 →
      a0.status = "pending" →
      ∃ a3 q2, approveGo repo action_id rb notes now q = (some a3, q2) ∧
        a3.action_id = a0.action_id ∧
        (a3.status = "executed" ∨ a3.status = "execution_failed") ∧
        a3.execution_result.isSome = true ∧
        a3.original_payload = a0.original_payload ∧
        a3.payload = (if a0.action_type = "update_task"
                      then premove a0.payload "task_id" else a0.payload) ∧
        q2.find? (fun a => a.action_id == action_id) = some a3 := by
  intro q
  induction q with
  | nil => intro a0 hfind _; simp at hfind
  | cons a rest ih =>
    intro a0 hfind hstat
    by_cases hb : a.action_id = action_id
    · rw [List.find?_cons_of_pos _ (by simpa using hb)] at hfind
      injection hfind with ha0
      subst ha0
      unfold approveGo
      rw [if_pos hb, if_neg (by simp [hstat])]
      dsimp only
      rw [executeAction_snd]
      by_cases hu : a.action_type = "update_task"
      · rw [if_pos hu, if_pos hu]
        refine ⟨_, _, rfl, rfl, ?_, rfl, rfl, rfl, ?_⟩
        · dsimp only
          split
          · exact Or.inl rfl
          · exact Or.inr rfl
        · exact List.find?_cons_of_pos _ (by simpa using hb)
      · rw [if_neg hu, if_neg hu]
        refine ⟨_, _, rfl, rfl, ?_, rfl, rfl, rfl, ?_⟩
        · dsimp only
          split
          · exact Or.inl rfl
          · exact Or.inr rfl
        · exact List.find?_cons_of_pos _ (by simpa using hb)
    · rw [List.find?_cons_of_neg _ (by simpa using hb)] at hfind
      obtain ⟨a3, q2, heq, hid, hst, hres, horig, hpay, hfind2⟩ := ih a0 hfind hstat
      refine ⟨a3, a :: q2, ?_, hid, hst, hres, horig, hpay, ?_⟩
      · unfold approveGo
        rw [if_neg hb, heq]
      · rw [List.find?_cons_of_neg _ (by simpa using hb)]
        exact hfind2

/-- C2: approving twice is idempotent.  If the first record matching the
id is pending, the first `approve_action` call returns it transitioned to
`executed` or `execution_failed` with the execution result stored; a
second call (any reviewer, any repo behaviour) returns `None` and leaves
the queue exactly as the first call left it. -/
theorem approve_action_idempotent (repo repo2 : RepoModel) (q : List PendingAction)
    (action_id rb rb2 now now2 : String) (notes notes2 : Option String)
    (a0 : PendingAction)
    (hfind : q.find? (fun a => a.action_id == action_id) = some a0)
    (hpend : a0.status = "pending") :
    (approveAction repo q action_id rb notes now).1.isSome = true ∧
    ((approveAction repo q action_id rb notes now).1.all
        (fun a1 => (a1.status == "executed" || a1.status == "execution_failed") &&
          a1.execution_result.isSome)) = true ∧
    approveAction repo2 (approveAction repo q action_id rb notes now).2 action_id rb2 notes2 now2 =
      (Option.none, (approveAction repo q action_id rb notes now).2) := by
  obtain ⟨a3, q2, heq, _, hst, hres, _, _, hfind2⟩ :=
    approveGo_pending repo action_id rb now notes q a0 hfind hpend
  unfold approveAction
  rw [heq]
  refine ⟨rfl, ?_, ?_⟩
  · dsimp [Option.all]
    rcases hst with h | h <;> simp [h, hres]
  · exact approveGo_nonpending repo2 action_id rb2 now2 notes2 q2 a3 hfind2
      (by rcases hst with h | h <;> simp [h])

/-- Witness for C2 on a concrete one-element queue. -/
theorem approve_action_idempotent_witness :
    ([c2Action].find? (fun a => a.action_id == "pa_c2") = some c2Action) ∧
    c2Action.status = "pending" ∧
    ((approveAction okRepo [c2Action] "pa_c2" "reviewer1" Option.none "t1").1.isSome = true ∧
     ((approveAction okRepo [c2Action] "pa_c2" "reviewer1" Option.none "t1").1.all
        (fun a1 => (a1.status == "executed" || a1.status == "execution_failed") &&
          a1.execution_result.isSome)) = true ∧
     approveAction okRepo (approveAction okRepo [c2Action] "pa_c2" "reviewer1" Option.none "t1").2
         "pa_c2" "reviewer2" Option.none "t2" =
       (Option.none, (approveAction okRepo [c2Action] "pa_c2" "reviewer1" Option.none "t1").2)) :=
  ⟨by decide, by decide,
   approve_action_idempotent okRepo okRepo [c2Action] "pa_c2" "reviewer1" "reviewer2"
     "t1" "t2" Option.none Option.none c2Action (by decide) (by decide)⟩

/-- Helper: editing the first pending record matching the id stores the
prior payload under `original_payload` and replaces the payload; the
edited record is still the first match and still pending. -/
theorem editGo_pending (action_id : String) (up : Payload) :
    ∀ (q : List PendingAction) (a0 : PendingAction),
      q.find? (fun a => a.action_id == action_id) = some a0 →
      a0.status = "pending" →
      ∃ q2, editGo action_id up q = some q2 ∧
        q2.find? (fun a => a.action_id == action_id) =
          some { a0 with original_payload := some a0.payload, payload := up,
                         was_edited := true } := by
  intro q
  induction q with
  | nil => intro a0 hfind _; simp at hfind
  | cons a rest ih =>
    intro a0 hfind hstat
    by_cases hb : a.action_id = action_id
    · rw [List.find?_cons_of_pos _ (by simpa using hb)] at hfind
      injection hfind with ha0
      subst ha0
      unfold editGo
      rw [if_pos hb, if_neg (by simp [hstat])]
      exact ⟨_, rfl, List.find?_cons_of_pos _ (by simpa using hb)⟩
    · rw [List.find?_cons_of_neg _ (by simpa using hb)] at hfind
      obtain ⟨q2, heq, hfind2⟩ := ih a0 hfind hstat
      refine ⟨a :: q2, ?_, ?_⟩
      · unfold editGo
        rw [if_neg hb, heq]
        rfl
      · rw [List.find?_cons_of_neg _ (by simpa using hb)]
        exact hfind2

/-- C8 amended: `edit_and_approve` on a pending record stores the pre-edit
payload under `original_payload`; the stored payload equals the new
payload, except that executing an `update_task` action pops `task_id` out
of it. -/
theorem edit_and_approve_payloads (repo : RepoModel) (q : List PendingAction)
    (action_id rb now : String) (up : Payload) (a0 : PendingAction)
    (hfind : q.find? (fun a => a.action_id == action_id) = some a0)
    (hpend : a0.status = "pending") :
    (editAndApprove repo q action_id up rb now).1.isSome = true ∧
    ((editAndApprove repo q action_id up rb now).1.all
        (fun r => (r.original_payload == some a0.payload) &&
          (r.payload == if a0.action_type = "update_task"
                        then premove up "task_id" else up))) = true := by
  obtain ⟨q2, heqEdit, hfind2⟩ := editGo_pending action_id up q a0 hfind hpend
  obtain ⟨a3, q3, heqApp, _, _, _, horig, hpay, _⟩ :=
    approveGo_pending repo action_id rb now Option.none q2 _ hfind2 hpend
  unfold editAndApprove approveAction
  rw [heqEdit]
  dsimp only
  rw [heqApp]
  refine ⟨rfl, ?_⟩
  dsimp [Option.all]
  rw [horig, hpay]
  dsimp only
  simp

/-- Witness for C8 amended on the concrete `update_task` record. -/
theorem edit_and_approve_payloads_witness :
    ([c8Action].find? (fun a => a.action_id == "pa_c8") = some c8Action) ∧
    c8Action.status = "pending" ∧
    ((editAndApprove okRepo [c8Action] "pa_c8" c8NewPayload "user" "t1").1.isSome = true ∧
     ((editAndApprove okRepo [c8Action] "pa_c8" c8NewPayload "user" "t1").1.all
        (fun r => (r.original_payload == some c8Action.payload) &&
          (r.payload == if c8Action.action_type = "update_task"
                        then premove c8NewPayload "task_id" else c8NewPayload))) = true) :=
  ⟨by decide, by decide,
   edit_and_approve_payloads okRepo [c8Action] "pa_c8" "user" "t1" c8NewPayload c8Action
     (by decide) (by decide)⟩

/-- Helper: the approve loop never leaves a record at status `approved`,
and never returns one. -/
theorem approveGo_all_not_approved (repo : RepoModel) (action_id rb now : String)
    (notes : Option String) :
    ∀ q : List PendingAction,
      q.all (fun a => a.status != "approved") = true →
      ((approveGo repo action_id rb notes now q).2.all
          (fun a => a.status != "approved")) = true ∧
      ((approveGo repo action_id rb notes now q).1.all
          (fun a => a.status != "approved")) = true := by
  intro q
  induction q with
  | nil => intro _; exact ⟨rfl, rfl⟩
  | cons a rest ih =>
    intro hall
    rw [List.all_cons, Bool.and_eq_true] at hall
    unfold approveGo
    by_cases hb : a.action_id = action_id
    · rw [if_pos hb]
      by_cases hp : a.status ≠ "pending"
      · rw [if_pos hp]
        exact ⟨by simp [List.all_cons, hall.1, hall.2], rfl⟩
      · rw [if_neg hp]
        dsimp only
        constructor
        · rw [List.all_cons, Bool.and_eq_true]
          refine ⟨?_, hall.2⟩
          dsimp only
          split <;> decide
        · dsimp [Option.all]
          split <;> decide
    · rw [if_neg hb]
      obtain ⟨h2, h1⟩ := ih hall.2
      dsimp only
      exact ⟨by rw [List.all_cons, Bool.and_eq_true]; exact ⟨hall.1, h2⟩, h1⟩

/-- Helper: the edit loop never changes a status, so it preserves the
absence of `approved`. -/
theorem editGo_all_not_approved (action_id : String) (up : Payload) :
    ∀ q q2 : List PendingAction,
      editGo action_id up q = some q2 →
      q.all (fun a => a.status != "approved") = true →
      q2.all (fun a => a.status != "approved") = true := by
  intro q
  induction q with
  | nil => intro q2 h _; simp [editGo] at h
  | cons a rest ih =>
    intro q2 h hall
    rw [List.all_cons, Bool.and_eq_true] at hall
    unfold editGo at h
    by_cases hb : a.action_id = action_id
    · rw [if_pos hb] at h
      by_cases hp : a.status ≠ "pending"
      · rw [if_pos hp] at h
        exact absurd h (by simp)
      · rw [if_neg hp] at h
        injection h with h
        subst h
        rw [List.all_cons, Bool.and_eq_true]
        exact ⟨hall.1, hall.2⟩
    · rw [if_neg hb] at h
      cases heq : editGo action_id up rest with
      | none => rw [heq] at h; exact absurd h (by simp)
      | some r2 =>
        rw [heq] at h
        injection h with h
        subst h
        rw [List.all_cons, Bool.and_eq_true]
        exact ⟨hall.1, ih r2 heq hall.2⟩

/-- C9: no record ever rests at the transient status `approved`.  Both
`approve_action` and `edit_and_approve` keep every queue record and every
returned record out of status `approved`: the value assigned during
approval is always overwritten by `executed`/`execution_failed` before the
queue is saved or the record returned. -/
theorem no_record_rests_approved (repo : RepoModel) (q : List PendingAction)
    (action_id rb now : String) (notes : Option String) (up : Payload)
    (h : q.all (fun a => a.status != "approved") = true) :
    ((approveAction repo q action_id rb notes now).2.all
        (fun a => a.status != "approved")) = true ∧
    ((approveAction repo q action_id rb notes now).1.all
        (fun a => a.status != "approved")) = true ∧
    ((editAndApprove repo q action_id up rb now).2.all
        (fun a => a.status != "approved")) = true ∧
    ((editAndApprove repo q action_id up rb now).1.all
        (fun a => a.status != "approved")) = true := by
  obtain ⟨h2, h1⟩ := approveGo_all_not_approved repo action_id rb now notes q h
  refine ⟨h2, h1, ?_, ?_⟩ <;>
    · unfold editAndApprove
      cases heq : editGo action_id up q with
      | none => simp [h]
      | some q2 =>
        have hq2 := editGo_all_not_approved action_id up q q2 heq h
        have := approveGo_all_not_approved repo action_id rb now Option.none q2 hq2
        unfold approveAction
        first
          | exact this.1
          | exact this.2

/-- Witness for C9 on a concrete pending `create_task` record. -/
theorem no_record_rests_approved_witness :
    ([c9Action].all (fun a => a.status != "approved") = true) ∧
    (((approveAction okRepo [c9Action] "pa_c9" "user" Option.none "t1").2.all
        (fun a => a.status != "approved")) = true ∧
     ((approveAction okRepo [c9Action] "pa_c9" "user" Option.none "t1").1.all
        (fun a => a.status != "approved")) = true ∧
     ((editAndApprove okRepo [c9Action] "pa_c9" [("priority", PyVal.str "P1")] "user" "t1").2.all
        (fun a => a.status != "approved")) = true ∧
     ((editAndApprove okRepo [c9Action] "pa_c9" [("priority", PyVal.str "P1")] "user" "t1").1.all
        (fun a => a.status != "approved")) = true) :=
  ⟨by decide,
   no_record_rests_approved okRepo [c9Action] "pa_c9" "user" "t1" Option.none
     [("priority", PyVal.str "P1")] (by decide)⟩

/-- Helper: one analyze→generate→quality pass from a loaded meeting state
succeeds, keeps the loop counters and meeting data, records a summary, and
scores below the 0.5 threshold whenever every oracle analysis scores below
50 points (the deterministic fallback scores 30). -/
theorem meeting_pass_spec (o : MeetingOracle)
    (hq : ∀ k a, o.analysis k = .ok a → analysisPoints a < 50)
    (st : MeetingState) (m : Meeting) (hm : st.meeting_data = some m) :
    ∃ st3, qualityCheckMom (generateMom (analyzeMeeting o st)) = .ok st3 ∧
      st3.iteration = st.iteration ∧
      st3.max_iterations = st.max_iterations ∧
      st3.meeting_data = some m ∧
      st3.meeting_summary.isSome = true ∧
      st3.mom_quality_score < (1 : ℚ)/2 := by
  have h100 : (0 : ℚ) < 100 := by norm_num
  cases hA : o.analysis st.iteration with
  | ok a =>
    have h50 := hq st.iteration a hA
    unfold analyzeMeeting
    rw [hm]
    dsimp only
    rw [hA]
    unfold generateMom qualityCheckMom
    dsimp only [Option.getD]
    refine ⟨_, rfl, rfl, rfl, rfl, rfl, ?_⟩
    show momQualityPoints _ / 100 < (1 : ℚ)/2
    rw [div_lt_iff₀ h100]
    have heq : momQualityPoints
        { meeting_id := st.meeting_id, title := m.title, date := m.scheduled_at,
          attendees := m.attendees, duration_mins := m.duration_mins,
          summary := a.summary, decisions := a.decisions,
          action_items := a.action_items, risks := a.risks,
          dependencies := a.dependencies } = analysisPoints a := rfl
    rw [heq]
    linarith
  | error e =>
    unfold analyzeMeeting
    rw [hm]
    dsimp only
    rw [hA]
    unfold generateMom qualityCheckMom
    dsimp only [Option.getD]
    refine ⟨_, rfl, rfl, rfl, rfl, rfl, ?_⟩
    show momQualityPoints _ / 100 < (1 : ℚ)/2
    rw [div_lt_iff₀ h100]
    unfold momQualityPoints
    rw [if_pos (by decide : "Meeting analysis failed, using fallback.".length > 20)]
    norm_num

/-- Helper: with every pass scoring below the threshold and the iteration
counter strictly below the cap, the loop retries forever with an
unchanged counter (the path function's increment is discarded), so any
recursion budget runs out. -/
theorem runMeetingFrom_recursion_error (o : MeetingOracle)
    (hq : ∀ k a, o.analysis k = .ok a → analysisPoints a < 50) :
    ∀ (fuel : Nat) (st : MeetingState) (m : Meeting),
      st.meeting_data = some m →
      st.iteration < st.max_iterations →
      runMeetingFrom o fuel st = .error "GraphRecursionError" := by
  intro fuel
  induction fuel with
  | zero => intro st m hm hlt; rfl
  | succ fuel ih =>
    intro st m hm hlt
    obtain ⟨st3, hpass, hit, hmax, hmd, hsum, hscore⟩ := meeting_pass_spec o hq st m hm
    unfold runMeetingFrom
    dsimp only
    rw [hpass]
    dsimp only
    have hretry : shouldRetryMom st3 = "retry" := by
      unfold shouldRetryMom
      rw [if_pos (show st3.mom_quality_score < (1 : ℚ)/2 ∧
            st3.iteration < st3.max_iterations from ⟨hscore, by omega⟩)]
    rw [if_pos hretry]
    exact ih st3 m hmd (by omega)

/-- C1: the code diverges from the claim.  `should_retry_mom` is the
conditional-edge path function of the meeting graph, and the framework
discards its in-place iteration increment; so when the retry predicate
always fires (every pass scores quality below the 0.5 threshold) the
iteration counter never advances, and for every positive cap N and every
recursion budget, `invoke` ends in the framework's `GraphRecursionError`
— not in a completed state with `iteration = N`. -/
theorem meeting_retry_never_terminates (o : MeetingOracle) (mtg : Meeting)
    (N fuel : Nat) (mid ue sid : String)
    (hlookup : o.lookup = .ok (some mtg))
    (hq : ∀ k a, o.analysis k = .ok a → analysisPoints a < 50)
    (hN : 0 < N) :
    invokeMeeting o fuel mid ue sid N = .error "GraphRecursionError" := by
  unfold invokeMeeting
  have hload : loadMeetingContext o (initialMeetingState mid ue sid N) =
      { initialMeetingState mid ue sid N with
          meeting_data := some mtg, status := "analyzing",
          transcript := some (o.transcript.getD "No transcript available"),
          past_meeting_patterns := o.patterns,
          reasoning_trace := ["Loaded meeting: " ++ mtg.title] ++
            (if o.patterns ≠ [] then ["Found similar past meetings"] else []) } := by
    unfold loadMeetingContext
    rw [hlookup]
    rfl
  rw [hload]
  exact runMeetingFrom_recursion_error o hq fuel
    { initialMeetingState mid ue sid N with
        meeting_data := some mtg, status := "analyzing",
        transcript := some (o.transcript.getD "No transcript available"),
        past_meeting_patterns := o.patterns,
        reasoning_trace := ["Loaded meeting: " ++ mtg.title] ++
          (if o.patterns ≠ [] then ["Found similar past meetings"] else []) } mtg
    rfl (by dsimp only [initialMeetingState]; omega)

/-- Witness for C1 at the failing input of Scenario D: meeting found,
`max_iterations = 2`, quality 0.3 on every pass, default recursion limit
25 — the run raises `GraphRecursionError`. -/
theorem meeting_retry_never_terminates_witness :
    c1Oracle.lookup = .ok (some c1Meeting) ∧ 0 < 2 ∧
    invokeMeeting c1Oracle 25 "mtg_1" "kowshik.naidu@contoso.com" "s1" 2 =
      .error "GraphRecursionError" :=
  ⟨rfl, by omega,
   meeting_retry_never_terminates c1Oracle c1Meeting 2 25 "mtg_1"
     "kowshik.naidu@contoso.com" "s1" rfl
     (fun k a h => by
       have h2 : Except.ok (ε := String) c1Analysis = Except.ok a := h
       injection h2 with h3
       rw [← h3]
       show analysisPoints c1Analysis < 50
       unfold analysisPoints momOfAnalysis momQualityPoints
       dsimp only [c1Analysis]
       rw [if_pos (by decide : ("aaaaaaaaaaaaaaaaaaaaaaaaa" : String).length > 20)]
       norm_num)
     (by omega)⟩

/-- Helper: consuming one streamed event emits UI events and approval
enqueues only, never a mark-processed effect. -/
theorem consumeStreamEvent_no_mark (email : Payload) (ev : String × EmailState) :
    (consumeStreamEvent email ev).countP isMarkEffect = 0 := by
  unfold consumeStreamEvent
  dsimp only
  rw [List.countP_append, Nat.add_eq_zero]
  constructor
  · split <;> rfl
  · induction ev.2.pending_approvals.filter (fun pa => pa.status = "pending") with
    | nil => rfl
    | cons a rest ih =>
      rw [List.flatMap_cons, List.countP_append, ih]
      rfl

/-- Helper: consuming a whole stream emits no mark-processed effect. -/
theorem consumed_no_mark (email : Payload) (evs : List (String × EmailState)) :
    (evs.flatMap (consumeStreamEvent email)).countP isMarkEffect = 0 := by
  induction evs with
  | nil => rfl
  | cons e rest ih =>
    rw [List.flatMap_cons, List.countP_append, ih, consumeStreamEvent_no_mark]

/-- Helper: a stream run that yielded no events ended in an exception (the
entry node either yields an event or raises). -/
theorem streamEmailGraph_nil_isSome (o : EmailOracle) (fuel : Nat) (node : String)
    (st : EmailState) (h : (streamEmailGraph o fuel node st).1 = []) :
    (streamEmailGraph o fuel node st).2.isSome = true := by
  cases fuel with
  | zero => rfl
  | succ fuel =>
    unfold streamEmailGraph at h ⊢
    cases he : emailNode o node st with
    | error e => rfl
    | ok st2 =>
      rw [he] at h
      dsimp only at h
      cases hn : emailNextNode node st2 with
      | none =>
        rw [hn] at h
        simp at h
      | some n =>
        rw [hn] at h
        simp at h

/-- Helper: `_process_with_langgraph` marks the email exactly once when the
stream finishes, and not at all when an exception escapes (the caller
marks it then). -/
theorem processWithLanggraph_mark_count (o : EmailOracle) (email : Payload) (u : String) :
    ((processWithLanggraph o email u).2 = Option.none →
      (processWithLanggraph o email u).1.countP isMarkEffect = 1) ∧
    (∀ e, (processWithLanggraph o email u).2 = some e →
      (processWithLanggraph o email u).1.countP isMarkEffect = 0) := by
  unfold processWithLanggraph
  dsimp only
  cases hr2 : (processEmailWithGraph o email u).2 with
  | some e =>
    refine ⟨?_, ?_⟩
    · intro h
      simp at h
    · intro e' _
      exact consumed_no_mark email _
  | none =>
    cases hl : (processEmailWithGraph o email u).1.getLast? with
    | none =>
      exfalso
      have hnil : (processEmailWithGraph o email u).1 = [] := by
        simpa using hl
      have hs := streamEmailGraph_nil_isSome o LANGGRAPH_RECURSION_LIMIT "classify"
        (initialEmailState email u) hnil
      unfold processEmailWithGraph at hr2
      rw [hr2] at hs
      simp at hs
    | some last =>
      refine ⟨?_, ?_⟩
      · intro _
        dsimp only
        rw [List.countP_append, consumed_no_mark]
        rfl
      · intro e h
        simp at h

/-- C6: the monitor calls `mark_email_processed` exactly once per work
item, whatever the outcome: completed, suspended awaiting approval, or a
raised exception. -/
theorem mark_processed_exactly_once (o : EmailOracle) (u : String) (email : Payload)
    (ps : ProcessorState) :
    ((processSingleEmail o u email ps).2.countP isMarkEffect) = 1 := by
  unfold processSingleEmail
  dsimp only
  cases hr : (processWithLanggraph o email u).2 with
  | none =>
    have h1 := (processWithLanggraph_mark_count o email u).1 hr
    dsimp only
    rw [List.countP_cons_of_neg isMarkEffect _ (by simp [isMarkEffect]), h1]
  | some e =>
    have h0 := (processWithLanggraph_mark_count o email u).2 e hr
    dsimp only
    rw [List.countP_append, List.countP_cons_of_neg isMarkEffect _ (by simp [isMarkEffect]), h0]
    rfl

/-- C4 counterexample: a step-level exception is NOT converted at the
Executor boundary.  For the concrete inbox email whose `subject` holds an
int, `classify_email` raises and the pipeline invocation re-throws the
exception to its caller — it does not return a final state with an error
status (EmailProcessingState has no `error` field at all). -/
theorem step_exception_rethrown :
    (processWithLanggraph c4Oracle c4BadEmail "kowshik.naidu@contoso.com").2 =
      some "AttributeError: object has no attribute lower" := by
  rfl

/-- C4 amended: a step-level exception propagates out of the Executor and
is caught one level up, at the Monitor boundary: `_process_single_email`
converts it into an `error` event carrying the message, increments
`error_count` (not `processed_count`), marks the email processed with
category `error`, and re-throws nothing. -/
theorem monitor_converts_step_exception (o : EmailOracle) (u : String) (email : Payload)
    (ps : ProcessorState) (e : String)
    (h : (processWithLanggraph o email u).2 = some e) :
    (processSingleEmail o u email ps).1.error_count = ps.error_count + 1 ∧
    (processSingleEmail o u email ps).1.processed_count = ps.processed_count ∧
    MonEffect.emit "error" (pgetD email "email_id" (.str "unknown"))
        ("Failed to process email: " ++ e) ∈ (processSingleEmail o u email ps).2 ∧
    MonEffect.markProcessed (pgetD email "email_id" (.str "unknown")) "error" ∈
      (processSingleEmail o u email ps).2 := by
  unfold processSingleEmail
  dsimp only
  rw [h]
  dsimp only
  refine ⟨rfl, rfl, ?_, ?_⟩
  · exact List.mem_cons_of_mem _ (List.mem_append_right _ (by simp))
  · exact List.mem_cons_of_mem _ (List.mem_append_right _ (by simp))

/-- Witness for C4 amended at the concrete failing email. -/
theorem monitor_converts_step_exception_witness :
    ((processWithLanggraph c4Oracle c4BadEmail "kowshik.naidu@contoso.com").2 =
      some "AttributeError: object has no attribute lower") ∧
    ((processSingleEmail c4Oracle "kowshik.naidu@contoso.com" c4BadEmail {}).1.error_count =
        ({} : ProcessorState).error_count + 1 ∧
     (processSingleEmail c4Oracle "kowshik.naidu@contoso.com" c4BadEmail {}).1.processed_count =
        ({} : ProcessorState).processed_count ∧
     MonEffect.emit "error" (pgetD c4BadEmail "email_id" (.str "unknown"))
        ("Failed to process email: " ++ "AttributeError: object has no attribute lower") ∈
          (processSingleEmail c4Oracle "kowshik.naidu@contoso.com" c4BadEmail {}).2 ∧
     MonEffect.markProcessed (pgetD c4BadEmail "email_id" (.str "unknown")) "error" ∈
       (processSingleEmail c4Oracle "kowshik.naidu@contoso.com" c4BadEmail {}).2) :=
  ⟨by rfl,
   monitor_converts_step_exception c4Oracle "kowshik.naidu@contoso.com" c4BadEmail {}
     "AttributeError: object has no attribute lower" (by rfl)⟩

/-- Helper: appending a missing name keeps the invoked list duplicate
free. -/
theorem append_singleton_nodup (l : List String) (a : String) (h : l.Nodup)
    (hmem : a ∉ l) : (l ++ [a]).Nodup := by
  rw [List.nodup_append]
  refine ⟨h, List.nodup_singleton a, ?_⟩
  intro x hx hy
  simp at hy
  subst hy
  exact hmem hx

/-- Helper: the guarded append keeps the list duplicate free. -/
theorem appendAgent_nodup (l : List String) (a : String) (h : l.Nodup) :
    (appendAgent l a).Nodup := by
  unfold appendAgent
  split
  · exact h
  · next hmem => exact append_singleton_nodup l a h hmem

/-- Helper: the guarded append grows the list by at most one. -/
theorem appendAgent_length (l : List String) (a : String) :
    (appendAgent l a).length ≤ l.length + 1 := by
  unfold appendAgent
  split
  · omega
  · simp

/-- Helper: every invoke node updates `agents_invoked` by exactly one
guarded append of its own name. -/
theorem invokeEmailAgent_agents (st : SuperState) :
    (invokeEmailAgent st).1.agents_invoked = appendAgent st.agents_invoked "email" := rfl

/-- Helper: meeting node append shape. -/
theorem invokeMeetingAgent_agents (st : SuperState) :
    (invokeMeetingAgent st).1.agents_invoked = appendAgent st.agents_invoked "meeting" := rfl

/-- Helper: task node append shape. -/
theorem invokeTaskAgent_agents (o : SGOracle) (st : SuperState) :
    (invokeTaskAgent o st).1.agents_invoked = appendAgent st.agents_invoked "task" := by
  unfold invokeTaskAgent
  cases o.task <;> rfl

/-- Helper: wellness node append shape. -/
theorem invokeWellnessAgent_agents (o : SGOracle) (st : SuperState) :
    (invokeWellnessAgent o st).1.agents_invoked = appendAgent st.agents_invoked "wellness" := by
  unfold invokeWellnessAgent
  cases o.wellness <;> rfl

/-- Helper: followup node append shape. -/
theorem invokeFollowupAgent_agents (o : SGOracle) (st : SuperState) :
    (invokeFollowupAgent o st).1.agents_invoked = appendAgent st.agents_invoked "followup" := by
  unfold invokeFollowupAgent
  cases o.followup <;> rfl

/-- Helper: report node append shape. -/
theorem invokeReportAgent_agents (o : SGOracle) (st : SuperState) :
    (invokeReportAgent o st).1.agents_invoked = appendAgent st.agents_invoked "report" := by
  unfold invokeReportAgent
  cases o.report <;> rfl

/-- Helper: the briefing node runs the guarded-append loop over its four
agent names. -/
theorem invokeBriefing_agents (o : SGOracle) (st : SuperState) :
    (invokeBriefing o st).1.agents_invoked =
      (appendAgentsLoop st.agents_invoked ["email", "task", "wellness", "followup"]).1 := by
  unfold invokeBriefing
  cases o.task <;> cases o.wellness <;> cases o.followup <;> rfl

/-- Helper: chat leaves the invoked list untouched. -/
theorem handleChat_agents (o : SGOracle) (st : SuperState) :
    (handleChat o st).1.agents_invoked = st.agents_invoked := rfl

/-- Helper: the append loop keeps the list duplicate free. -/
theorem appendAgentsLoop_nodup :
    ∀ (names l : List String), l.Nodup → (appendAgentsLoop l names).1.Nodup := by
  intro names
  induction names with
  | nil => intro l h; exact h
  | cons n ns ih =>
    intro l h
    unfold appendAgentsLoop
    split
    · exact ih l h
    · next hmem =>
      dsimp only
      exact ih (l ++ [n]) (append_singleton_nodup l n h hmem)

/-- Helper: the append loop grows the list by at most the number of
names. -/
theorem appendAgentsLoop_length :
    ∀ (names l : List String),
      (appendAgentsLoop l names).1.length ≤ l.length + names.length := by
  intro names
  induction names with
  | nil => intro l; simp [appendAgentsLoop]
  | cons n ns ih =>
    intro l
    unfold appendAgentsLoop
    split
    · have := ih l
      simp only [List.length_cons]
      omega
    · dsimp only
      have := ih (l ++ [n])
      simp only [List.length_append, List.length_cons, List.length_nil] at this ⊢
      omega

/-- Helper: the trigger check never touches the invoked list. -/
theorem checkTriggers_agents (st : SuperState) :
    (checkCrossAgentTriggers st).agents_invoked = st.agents_invoked := by
  unfold checkCrossAgentTriggers
  dsimp only
  split <;> rfl

/-- Helper: the triggers produced by one check fit under the cap: the
guard refuses everything at 4 invoked agents, the wellness trigger needs
fewer than 3, so invoked + pending triggers never exceeds 4. -/
theorem checkTriggers_length (st : SuperState) (h : st.agents_invoked.length ≤ 4) :
    st.agents_invoked.length + (checkCrossAgentTriggers st).triggered_agents.length ≤ 4 := by
  unfold checkCrossAgentTriggers
  dsimp only
  split
  · simp only [List.length_nil]
    omega
  · next hlen =>
    rw [List.length_append]
    cases hER : st.email_result with
    | none =>
      cases hTR : st.task_result with
      | none =>
        simp only [List.length_nil]
        omega
      | some tr =>
        dsimp only
        split
        · next hc =>
          obtain ⟨-, hlt3, -⟩ := hc
          simp only [List.length_nil, List.length_singleton]
          omega
        · simp only [List.length_nil]
          omega
    | some er =>
      dsimp only
      split
      · next hc1 =>
        cases hTR : st.task_result with
        | none =>
          simp only [List.length_nil, List.length_singleton]
          omega
        | some tr =>
          dsimp only
          split
          · next hc =>
            obtain ⟨-, hlt3, -⟩ := hc
            simp only [List.length_singleton]
            omega
          · simp only [List.length_nil, List.length_singleton]
            omega
      · cases hTR : st.task_result with
        | none =>
          simp only [List.length_nil]
          omega
        | some tr =>
          dsimp only
          split
          · next hc =>
            obtain ⟨-, hlt3, -⟩ := hc
            simp only [List.length_nil, List.length_singleton]
            omega
          · simp only [List.length_nil]
            omega

/-- Helper: each executed trigger appends at most one agent and keeps the
list duplicate free. -/
theorem executeTriggersLoop_agents (o : SGOracle) :
    ∀ (ts : List Trigger) (st : SuperState),
      ((executeTriggersLoop o ts st).1.agents_invoked.length ≤
        st.agents_invoked.length + ts.length) ∧
      (st.agents_invoked.Nodup → (executeTriggersLoop o ts st).1.agents_invoked.Nodup) := by
  intro ts
  induction ts with
  | nil =>
    intro st
    exact ⟨by simp [executeTriggersLoop], fun h => h⟩
  | cons t ts ih =>
    intro st
    unfold executeTriggersLoop
    dsimp only
    split_ifs with h1 h2 h3
    · obtain ⟨ihl, ihn⟩ := ih (invokeTaskAgent o st).1
      rw [invokeTaskAgent_agents] at ihl ihn
      constructor
      · have := appendAgent_length st.agents_invoked "task"
        simp only [List.length_cons]
        omega
      · intro hn
        exact ihn (appendAgent_nodup _ _ hn)
    · obtain ⟨ihl, ihn⟩ := ih (invokeWellnessAgent o st).1
      rw [invokeWellnessAgent_agents] at ihl ihn
      constructor
      · have := appendAgent_length st.agents_invoked "wellness"
        simp only [List.length_cons]
        omega
      · intro hn
        exact ihn (appendAgent_nodup _ _ hn)
    · obtain ⟨ihl, ihn⟩ := ih (invokeFollowupAgent o st).1
      rw [invokeFollowupAgent_agents] at ihl ihn
      constructor
      · have := appendAgent_length st.agents_invoked "followup"
        simp only [List.length_cons]
        omega
      · intro hn
        exact ihn (appendAgent_nodup _ _ hn)
    · obtain ⟨ihl, ihn⟩ := ih st
      constructor
      · simp only [List.length_cons]
        omega
      · exact ihn

/-- Helper: `execute_triggers` changes `agents_invoked` exactly as its
loop does. -/
theorem executeTriggers_agents (o : SGOracle) (st : SuperState) :
    (executeTriggers o st).1.agents_invoked =
      (executeTriggersLoop o st.triggered_agents st).1.agents_invoked := rfl

/-- Helper: response generation and episode recording keep the invoked
list. -/
theorem tail_agents (st : SuperState) :
    (recordEpisodeSG (generateResponse st)).agents_invoked = st.agents_invoked := by
  unfold recordEpisodeSG generateResponse
  cases st.final_response <;> rfl

/-- C3: over a full super-graph run, the Trigger Coordinator never invokes
the same pipeline twice and the invoked set stays within the depth cap:
the final `agents_invoked` has no duplicates and at most 4 entries,
whatever the classified intent and subgraph outcomes. -/
theorem trigger_coordinator_bounded (o : SGOracle) (ui ue sid : String) :
    (processUserRequest o ui ue sid).1.agents_invoked.Nodup ∧
    (processUserRequest o ui ue sid).1.agents_invoked.length ≤ 4 := by
  unfold processUserRequest
  dsimp only
  have h0 : (classifyIntent o (initialSuperState ui ue sid)).agents_invoked = [] := rfl
  have hstep1 :
      (runAgentNode o (routeToAgent (classifyIntent o (initialSuperState ui ue sid)))
          (classifyIntent o (initialSuperState ui ue sid))).1.agents_invoked.Nodup ∧
      (runAgentNode o (routeToAgent (classifyIntent o (initialSuperState ui ue sid)))
          (classifyIntent o (initialSuperState ui ue sid))).1.agents_invoked.length ≤ 4 := by
    unfold runAgentNode
    split_ifs
    · rw [invokeEmailAgent_agents, h0]; exact ⟨by decide, by decide⟩
    · rw [invokeMeetingAgent_agents, h0]; exact ⟨by decide, by decide⟩
    · rw [invokeTaskAgent_agents, h0]; exact ⟨by decide, by decide⟩
    · rw [invokeWellnessAgent_agents, h0]; exact ⟨by decide, by decide⟩
    · rw [invokeFollowupAgent_agents, h0]; exact ⟨by decide, by decide⟩
    · rw [invokeReportAgent_agents, h0]; exact ⟨by decide, by decide⟩
    · rw [invokeBriefing_agents, h0]; exact ⟨by decide, by decide⟩
    · rw [handleChat_agents, h0]; exact ⟨by decide, by decide⟩
  split
  · next htr =>
    rw [tail_agents, executeTriggers_agents]
    obtain ⟨hloopLen, hloopNodup⟩ := executeTriggersLoop_agents o
      (checkCrossAgentTriggers
        (runAgentNode o (routeToAgent (classifyIntent o (initialSuperState ui ue sid)))
          (classifyIntent o (initialSuperState ui ue sid))).1).triggered_agents
      (checkCrossAgentTriggers
        (runAgentNode o (routeToAgent (classifyIntent o (initialSuperState ui ue sid)))
          (classifyIntent o (initialSuperState ui ue sid))).1)
    have hcheckLen := checkTriggers_length
      (runAgentNode o (routeToAgent (classifyIntent o (initialSuperState ui ue sid)))
        (classifyIntent o (initialSuperState ui ue sid))).1 hstep1.2
    rw [checkTriggers_agents] at hloopLen hloopNodup
    exact ⟨hloopNodup hstep1.1, by omega⟩
  · next htr =>
    rw [tail_agents, checkTriggers_agents]
    exact hstep1

/-- Helper: a trigger-executed task invocation emits the subgraph call
first and the append second. -/
theorem invokeTaskAgent_trace (o : SGOracle) (st : SuperState)
    (h : "task" ∉ st.agents_invoked) :
    (invokeTaskAgent o st).2 = [SGEvent.subInvoke "task", SGEvent.appendName "task"] := by
  unfold invokeTaskAgent
  cases o.task <;> (dsimp only; unfold appendAgentEvents; rw [if_neg h])

/-- Helper: wellness invocation trace shape. -/
theorem invokeWellnessAgent_trace (o : SGOracle) (st : SuperState)
    (h : "wellness" ∉ st.agents_invoked) :
    (invokeWellnessAgent o st).2 =
      [SGEvent.subInvoke "wellness", SGEvent.appendName "wellness"] := by
  unfold invokeWellnessAgent
  cases o.wellness <;> (dsimp only; unfold appendAgentEvents; rw [if_neg h])

/-- Helper: followup invocation trace shape. -/
theorem invokeFollowupAgent_trace (o : SGOracle) (st : SuperState)
    (h : "followup" ∉ st.agents_invoked) :
    (invokeFollowupAgent o st).2 =
      [SGEvent.subInvoke "followup", SGEvent.appendName "followup"] := by
  unfold invokeFollowupAgent
  cases o.followup <;> (dsimp only; unfold appendAgentEvents; rw [if_neg h])

/-- Helper: the trigger-execution loop's trace is a sequence of
(invoke, then append) pairs. -/
theorem executeTriggersLoop_trace (o : SGOracle) :
    ∀ (ts : List Trigger) (st : SuperState),
      ∃ names : List String, (executeTriggersLoop o ts st).2 =
        names.flatMap (fun n => [SGEvent.subInvoke n, SGEvent.appendName n]) := by
  intro ts
  induction ts with
  | nil => intro st; exact ⟨[], rfl⟩
  | cons t ts ih =>
    intro st
    unfold executeTriggersLoop
    dsimp only
    split_ifs with h1 h2 h3
    · obtain ⟨names, hn⟩ := ih (invokeTaskAgent o st).1
      exact ⟨"task" :: names,
        by rw [invokeTaskAgent_trace o st h1.2, hn, List.flatMap_cons]⟩
    · obtain ⟨names, hn⟩ := ih (invokeWellnessAgent o st).1
      exact ⟨"wellness" :: names,
        by rw [invokeWellnessAgent_trace o st h2.2, hn, List.flatMap_cons]⟩
    · obtain ⟨names, hn⟩ := ih (invokeFollowupAgent o st).1
      exact ⟨"followup" :: names,
        by rw [invokeFollowupAgent_trace o st h3.2, hn, List.flatMap_cons]⟩
    · obtain ⟨names, hn⟩ := ih st
      exact ⟨names, by rw [hn]; rfl⟩

/-- C5 counterexample: on the concrete coordinator state of a task-route
run with a queued wellness trigger, `execute_triggers` emits the subgraph
invocation BEFORE the append: the target's name is not a member of the
invoked set at the moment of invocation, refuting
"appended before invocation, never after it returns". -/
theorem trigger_append_not_before_invoke :
    (executeTriggers c5Oracle c5State).2 =
      [SGEvent.subInvoke "wellness", SGEvent.appendName "wellness"] ∧
    ¬ appendedBeforeInvoked (executeTriggers c5Oracle c5State).2 := by
  refine ⟨by decide, ?_⟩
  intro hcl
  obtain ⟨j, hj, -⟩ := hcl 0 "wellness" (by decide)
  omega

/-- C5 amended: whenever the Trigger Coordinator invokes a target pipeline
the name is appended to `agents_invoked` immediately AFTER the invocation
returns, never before: the `execute_triggers` trace is a concatenation of
(subgraph invocation, append) pairs. -/
theorem trigger_append_after_invoke (o : SGOracle) (st : SuperState) :
    ∃ names : List String, (executeTriggers o st).2 =
      names.flatMap (fun n => [SGEvent.subInvoke n, SGEvent.appendName n]) :=
  executeTriggersLoop_trace o st.triggered_agents st

end Opspilot
